import Mathlib

/-! SmartServoFramework: the HerkuleX "simple API" controller and the serial port

A shallow embedding of `src/HerkuleXSimpleAPI.cpp`, followed by one of
`src/SerialPortWindows.cpp` (introduced where its definitions start).

* C++ `int` values are `Int`; no operation of the controller overflows on the
  values it handles, so no wrap-around is modelled.
* The object `HerkuleXSimpleAPI` is a record of its member variables.  Every
  member function takes the object and returns the updated object next to its
  result.
* The protocol layer (`hkx_ping`, `hkx_read_byte`, ...), the control tables and
  the enumerations live in other files of the framework (class `HerkuleX`,
  `ControlTables.cpp`, the headers).  They are parameters of the development,
  collected in `Env`: a theorem stated for an `Env` holds for all of them.
* Every call of a protocol primitive is recorded, in order, in the member
  `calls`; this ghost field is how "transmits nothing" is stated.
-/

namespace SmartServo

/-- Modelled from the spec: the reserved broadcast id, `0xFE (254)`; the header
declaring `BROADCAST_ID` is not among the sources. -/
def BROADCAST_ID : Int := 254

/-- The enumerators, macros and default arguments that the controller uses and
that the headers declare (`Utils.h`, `ControlTables.h`, `HerkuleXSimpleAPI.h`,
`minitraces.h`). -/
structure Decls where
  REGISTER_AUTO : Int
  REGISTER_ROM : Int
  REGISTER_RAM : Int
  REGISTER_BOTH : Int
  READ_WRITE : Int
  COMM_RXSUCCESS : Int
  SERVO_UNKNOWN : Int
  SERVO_MX : Int
  SERVO_XL : Int
  SERVO_PRO : Int
  SERVO_HERKULEX : Int
  SERVO_DRS : Int
  SERVO_DRS_0401 : Int
  SERVO_DRS_0402 : Int
  SERVO_DRS_0601 : Int
  SERVO_DRS_0602 : Int
  SERIAL_USB2AX : Int
  LED_GREEN : Int
  LED_BLUE : Int
  LED_RED : Int
  REG_MODEL_NUMBER : Int
  REG_FIRMWARE_VERSION : Int
  REG_ID : Int
  REG_BAUD_RATE : Int
  REG_MIN_POSITION : Int
  REG_MAX_POSITION : Int
  REG_TORQUE_ENABLE : Int
  REG_LED : Int
  REG_GOAL_POSITION : Int
  REG_CURRENT_TEMPERATURE : Int
  REG_CURRENT_VOLTAGE : Int
  /-- default value of the parameter `broadcast` of `checkId` -/
  checkId_broadcast : Bool
  /-- default value of the parameter `color` of `setLed` -/
  setLed_color : Int
  /-- default value of the parameter `reg_type` of `getSetting` -/
  getSetting_reg_type : Int
  /-- default value of the parameter `device` of `getSetting` -/
  getSetting_device : Int
  /-- whether the macro `TRACE_1` evaluates its arguments in this build -/
  TRACE_1_enabled : Bool

/-- The enumerators of `RegisterType_e` are pairwise different. -/
def Decls.registerTypesDistinct (D : Decls) : Prop :=
  D.REGISTER_AUTO ≠ D.REGISTER_ROM ∧ D.REGISTER_AUTO ≠ D.REGISTER_RAM ∧
  D.REGISTER_AUTO ≠ D.REGISTER_BOTH ∧ D.REGISTER_ROM ≠ D.REGISTER_RAM ∧
  D.REGISTER_ROM ≠ D.REGISTER_BOTH ∧ D.REGISTER_RAM ≠ D.REGISTER_BOTH

instance (D : Decls) : Decidable D.registerTypesDistinct := by
  unfold Decls.registerTypesDistinct; infer_instance

/-- The fields of `RegisterInfos` that the controller reads.  The C++ aggregate
has nine `int` members, all initialised to `-1`; the controller reads these six
only. -/
structure RegisterInfos where
  reg_size : Int
  reg_access_mode : Int
  reg_addr_rom : Int
  reg_addr_ram : Int
  reg_value_min : Int
  reg_value_max : Int
deriving DecidableEq, Repr

/-- The answer filled in by `hkx_ping`. -/
structure PingResponse where
  model_number : Int
  firmware_version : Int
deriving DecidableEq, Repr

/-- The control-table side of the framework (`ControlTables.cpp` and the table
headers).  A pointer to a table is an `Option Table`, `none` being `NULL`. -/
structure ControlTables (Table : Type) where
  DRS0101_control_table : Table
  DRS0x01_control_table : Table
  DRS0x02_control_table : Table
  MX_control_table : Table
  XL320_control_table : Table
  PRO_control_table : Table
  /-- `getRegisterTable(device)` -/
  getRegisterTable : Int → Option Table
  /-- `getRegisterInfos(table, reg_name, infos)`: `some infos` when the call
  returns `1` -/
  getRegisterInfos : Table → Int → Option RegisterInfos
  /-- `getRegisterAddr(table, reg_name, reg_mode)`; the last argument is `none`
  where the call leaves it to its default -/
  getRegisterAddr : Option Table → Int → Option Int → Int

/-- The protocol layer under the controller (class `HerkuleX`), as a transition
system on an arbitrary state `σ`. -/
structure Bus (σ : Type) where
  hkx_ping : σ → Int → Bool × PingResponse × σ
  hkx_reboot : σ → Int → σ
  hkx_reset : σ → Int → Int → σ
  hkx_read_byte : σ → Int → Int → Int → Int × σ
  hkx_read_word : σ → Int → Int → Int → Int × σ
  hkx_write_byte : σ → Int → Int → Int → Int → σ
  hkx_write_word : σ → Int → Int → Int → Int → σ
  hkx_i_jog : σ → Int → Int → Int → σ
  /-- `hkx_print_error()`: the error status left by the last transaction -/
  hkx_print_error : σ → Int
  /-- `hkx_get_com_status()` -/
  hkx_get_com_status : σ → Int

/-- Everything the controller is compiled against. -/
structure Env (σ Table : Type) extends Decls, ControlTables Table, Bus σ

/-- One invocation of a protocol primitive, with its arguments. -/
inductive BusCall where
  | ping (id : Int)
  | reboot (id : Int)
  | reset (id setting : Int)
  | read_byte (id addr reg_type : Int)
  | read_word (id addr reg_type : Int)
  | write_byte (id addr value reg_type : Int)
  | write_word (id addr value reg_type : Int)
  | i_jog (id mode value : Int)
deriving DecidableEq, Repr

/-- A register write. -/
def BusCall.isWrite : BusCall → Bool
  | .write_byte _ _ _ _ => true
  | .write_word _ _ _ _ => true
  | _ => false

/-- The member variables of the controller object, the state of the protocol
layer it inherits from, and the record of the primitives called so far. -/
structure HerkuleXSimpleAPI (σ Table : Type) where
  ackPolicy : Int
  maxId : Int
  protocolVersion : Int
  serialDevice : Int
  ct : Option Table
  bus : σ
  calls : List BusCall

namespace HerkuleXSimpleAPI

variable {σ Table : Type}

/-! ### The protocol primitives, recorded -/

/-- Call of `hkx_ping(id, status)`. -/
def hkx_ping (E : Env σ Table) (api : HerkuleXSimpleAPI σ Table) (id : Int) :
    Bool × PingResponse × HerkuleXSimpleAPI σ Table :=
  let r := E.hkx_ping api.bus id
  (r.1, r.2.1, { api with bus := r.2.2, calls := api.calls ++ [BusCall.ping id] })

/-- Call of `hkx_reboot(id)`. -/
def hkx_reboot (E : Env σ Table) (api : HerkuleXSimpleAPI σ Table) (id : Int) :
    HerkuleXSimpleAPI σ Table :=
  { api with bus := E.hkx_reboot api.bus id, calls := api.calls ++ [BusCall.reboot id] }

/-- Call of `hkx_reset(id, setting)`. -/
def hkx_reset (E : Env σ Table) (api : HerkuleXSimpleAPI σ Table) (id setting : Int) :
    HerkuleXSimpleAPI σ Table :=
  { api with bus := E.hkx_reset api.bus id setting,
             calls := api.calls ++ [BusCall.reset id setting] }

/-- Call of `hkx_read_byte(id, addr, reg_type)`. -/
def hkx_read_byte (E : Env σ Table) (api : HerkuleXSimpleAPI σ Table) (id addr reg_type : Int) :
    Int × HerkuleXSimpleAPI σ Table :=
  let r := E.hkx_read_byte api.bus id addr reg_type
  (r.1, { api with bus := r.2, calls := api.calls ++ [BusCall.read_byte id addr reg_type] })

/-- Call of `hkx_read_word(id, addr, reg_type)`. -/
def hkx_read_word (E : Env σ Table) (api : HerkuleXSimpleAPI σ Table) (id addr reg_type : Int) :
    Int × HerkuleXSimpleAPI σ Table :=
  let r := E.hkx_read_word api.bus id addr reg_type
  (r.1, { api with bus := r.2, calls := api.calls ++ [BusCall.read_word id addr reg_type] })

/-- Call of `hkx_write_byte(id, addr, value, reg_type)`. -/
def hkx_write_byte (E : Env σ Table) (api : HerkuleXSimpleAPI σ Table)
    (id addr value reg_type : Int) : HerkuleXSimpleAPI σ Table :=
  { api with bus := E.hkx_write_byte api.bus id addr value reg_type,
             calls := api.calls ++ [BusCall.write_byte id addr value reg_type] }

/-- Call of `hkx_write_word(id, addr, value, reg_type)`. -/
def hkx_write_word (E : Env σ Table) (api : HerkuleXSimpleAPI σ Table)
    (id addr value reg_type : Int) : HerkuleXSimpleAPI σ Table :=
  { api with bus := E.hkx_write_word api.bus id addr value reg_type,
             calls := api.calls ++ [BusCall.write_word id addr value reg_type] }

/-- Call of `hkx_i_jog(id, mode, value)`. -/
def hkx_i_jog (E : Env σ Table) (api : HerkuleXSimpleAPI σ Table) (id mode value : Int) :
    HerkuleXSimpleAPI σ Table :=
  { api with bus := E.hkx_i_jog api.bus id mode value,
             calls := api.calls ++ [BusCall.i_jog id mode value] }

/-- Value of `hkx_print_error()`. -/
def hkx_print_error (E : Env σ Table) (api : HerkuleXSimpleAPI σ Table) : Int :=
  E.hkx_print_error api.bus

/-- Value of `hkx_get_com_status()`. -/
def hkx_get_com_status (E : Env σ Table) (api : HerkuleXSimpleAPI σ Table) : Int :=
  E.hkx_get_com_status api.bus

/-! ### Construction and id check -/

/-- The constructor `HerkuleXSimpleAPI::HerkuleXSimpleAPI(int servoSerie)`, run
on an object `pre` holding the initial values of the members.  The parameter
`servoSerie` is overwritten with `SERVO_DRS` before the control table is
chosen, as in the source. -/
def ctor (E : Env σ Table) (pre : HerkuleXSimpleAPI σ Table) (servoSerie : Int) :
    HerkuleXSimpleAPI σ Table :=
  if servoSerie ≠ E.SERVO_UNKNOWN then
    if servoSerie ≥ E.SERVO_HERKULEX then
      let api := { pre with ackPolicy := 1, maxId := 253, protocolVersion := 1 }
      let servoSerie := E.SERVO_DRS
      if servoSerie = E.SERVO_DRS_0402 ∨ servoSerie = E.SERVO_DRS_0602 then
        { api with ct := some E.DRS0x02_control_table }
      else if servoSerie = E.SERVO_DRS_0401 ∨ servoSerie = E.SERVO_DRS_0601 then
        { api with ct := some E.DRS0x01_control_table }
      else
        { api with ct := some E.DRS0101_control_table }
    else
      let api := { pre with ackPolicy := 2, maxId := 252 }
      if servoSerie ≥ E.SERVO_PRO then
        { api with protocolVersion := 2, ct := some E.PRO_control_table }
      else if servoSerie ≥ E.SERVO_XL then
        { api with protocolVersion := 2, ct := some E.XL320_control_table }
      else
        let api := { api with protocolVersion := 1, ct := some E.MX_control_table }
        if api.serialDevice = E.SERIAL_USB2AX then
          { api with maxId := 252 }
        else
          { api with maxId := 253 }
  else
    pre

/-- The member function `checkId(id, broadcast)`. -/
def checkId (api : HerkuleXSimpleAPI σ Table) (id : Int) (broadcast : Bool) : Bool :=
  if (id ≥ 0 ∧ id ≤ api.maxId) ∨ (id = BROADCAST_ID ∧ broadcast = true) then
    true
  else
    false

/-! ### Operations -/

/-- The member function `ping(id, status)`. -/
def ping (E : Env σ Table) (api : HerkuleXSimpleAPI σ Table) (id : Int) :
    Bool × PingResponse × HerkuleXSimpleAPI σ Table :=
  hkx_ping E api id

/-- The member function `reboot(id)`. -/
def reboot (E : Env σ Table) (api : HerkuleXSimpleAPI σ Table) (id : Int) :
    HerkuleXSimpleAPI σ Table :=
  if api.checkId id E.checkId_broadcast = true then
    hkx_reboot E api id
  else
    api

/-- The member function `reset(id, setting)`. -/
def reset (E : Env σ Table) (api : HerkuleXSimpleAPI σ Table) (id setting : Int) :
    HerkuleXSimpleAPI σ Table :=
  if api.checkId id E.checkId_broadcast = true then
    hkx_reset E api id setting
  else
    api

/-- The member function `readModelNumber(id)`. -/
def readModelNumber (E : Env σ Table) (api : HerkuleXSimpleAPI σ Table) (id : Int) :
    Int × HerkuleXSimpleAPI σ Table :=
  if api.checkId id false = true then
    let addr := E.getRegisterAddr api.ct E.REG_MODEL_NUMBER none
    let r := hkx_read_word E api id addr E.REGISTER_ROM
    if hkx_print_error E r.2 ≠ 0 then (-1, r.2) else (r.1, r.2)
  else
    (-1, api)

/-- The member function `readFirmwareVersion(id)`. -/
def readFirmwareVersion (E : Env σ Table) (api : HerkuleXSimpleAPI σ Table) (id : Int) :
    Int × HerkuleXSimpleAPI σ Table :=
  if api.checkId id false = true then
    let addr := E.getRegisterAddr api.ct E.REG_FIRMWARE_VERSION none
    let r := hkx_read_word E api id addr E.REGISTER_ROM
    if hkx_print_error E r.2 ≠ 0 then (-1, r.2) else (r.1, r.2)
  else
    (-1, api)

/-- The member function `changeId(old_id, new_id)`. -/
def changeId (E : Env σ Table) (api : HerkuleXSimpleAPI σ Table) (old_id new_id : Int) :
    Int × HerkuleXSimpleAPI σ Table :=
  if api.checkId old_id false = true then
    if new_id ≥ 0 ∧ new_id ≤ api.maxId then
      let api1 := (hkx_ping E api new_id).2.2
      if hkx_get_com_status E api1 = E.COMM_RXSUCCESS then
        (0, api1)
      else
        let addr_rom := E.getRegisterAddr api1.ct E.REG_ID (some E.REGISTER_ROM)
        let api2 := hkx_write_byte E api1 old_id addr_rom new_id E.REGISTER_ROM
        let status1 : Int := if hkx_print_error E api2 = 0 then 1 else 0
        let addr_ram := E.getRegisterAddr api2.ct E.REG_ID (some E.REGISTER_RAM)
        let api3 := hkx_write_byte E api2 old_id addr_ram new_id E.REGISTER_RAM
        let status2 : Int := if hkx_print_error E api3 = 0 then 1 else status1
        (status2, api3)
    else
      (0, api)
  else
    (0, api)

/-- The member function `changeBaudRate(id, baudnum)`. -/
def changeBaudRate (E : Env σ Table) (api : HerkuleXSimpleAPI σ Table) (id baudnum : Int) :
    Int × HerkuleXSimpleAPI σ Table :=
  if api.checkId id E.checkId_broadcast = true then
    if baudnum ≥ 0 ∧ baudnum ≤ 34 then
      let addr_rom := E.getRegisterAddr api.ct E.REG_BAUD_RATE (some E.REGISTER_ROM)
      let api1 := hkx_write_byte E api id addr_rom baudnum E.REGISTER_ROM
      let status1 : Int := if hkx_print_error E api1 = 0 then 1 else 0
      let addr_ram := E.getRegisterAddr api1.ct E.REG_BAUD_RATE (some E.REGISTER_RAM)
      let api2 := hkx_write_byte E api1 id addr_ram baudnum E.REGISTER_RAM
      let status2 : Int := if hkx_print_error E api2 = 0 then 1 else status1
      (status2, api2)
    else
      (0, api)
  else
    (0, api)

/-- The check applied by `getMinMaxPositions` to a position it has read: the
value itself when the transaction succeeded and the value is in `[0, 4095]`,
else `-1`. -/
def checkedPosition (err value : Int) : Int :=
  if err = 0 then
    if value < 0 ∨ value > 4095 then -1 else value
  else
    -1

/-- The member function `getMinMaxPositions(id, min, max)`; `min` and `max` are
passed by reference, so their final values are returned. -/
def getMinMaxPositions (E : Env σ Table) (api : HerkuleXSimpleAPI σ Table) (id min max : Int) :
    Int × Int × HerkuleXSimpleAPI σ Table :=
  if api.checkId id false = true then
    let addr_min_ram := E.getRegisterAddr api.ct E.REG_MIN_POSITION (some E.REGISTER_RAM)
    let addr_max_ram := E.getRegisterAddr api.ct E.REG_MAX_POSITION (some E.REGISTER_RAM)
    let r1 := hkx_read_word E api id addr_min_ram E.REGISTER_RAM
    let min1 := checkedPosition (hkx_print_error E r1.2) r1.1
    let r2 := hkx_read_word E r1.2 id addr_max_ram E.REGISTER_RAM
    let max1 := checkedPosition (hkx_print_error E r2.2) r2.1
    (min1, max1, r2.2)
  else
    (min, max, api)

/-- The member function `setMinMaxPositions(id, min, max)`. -/
def setMinMaxPositions (E : Env σ Table) (api : HerkuleXSimpleAPI σ Table) (id min max : Int) :
    Int × HerkuleXSimpleAPI σ Table :=
  if api.checkId id E.checkId_broadcast = true then
    if min < 0 ∨ min > 4095 ∨ max < 0 ∨ max > 4095 then
      (0, api)
    else
      let addr_min_rom := E.getRegisterAddr api.ct E.REG_MIN_POSITION (some E.REGISTER_ROM)
      let addr_max_rom := E.getRegisterAddr api.ct E.REG_MAX_POSITION (some E.REGISTER_ROM)
      let api1 := hkx_write_word E api id addr_min_rom min E.REGISTER_ROM
      let status1 : Int := if hkx_print_error E api1 = 0 then 1 else 0
      let api2 := hkx_write_word E api1 id addr_max_rom max E.REGISTER_ROM
      let status2 : Int := if hkx_print_error E api2 = 0 then 1 else status1
      let addr_min_ram := E.getRegisterAddr api2.ct E.REG_MIN_POSITION (some E.REGISTER_RAM)
      let addr_max_ram := E.getRegisterAddr api2.ct E.REG_MAX_POSITION (some E.REGISTER_RAM)
      let api3 := hkx_write_word E api2 id addr_min_ram min E.REGISTER_RAM
      let status3 : Int := if hkx_print_error E api3 = 0 then 1 else status2
      let api4 := hkx_write_word E api3 id addr_max_ram max E.REGISTER_RAM
      let status4 : Int := if hkx_print_error E api4 = 0 then 1 else status3
      (status4, api4)
  else
    (0, api)

/-- The member function `getTorqueEnabled(id)`. -/
def getTorqueEnabled (E : Env σ Table) (api : HerkuleXSimpleAPI σ Table) (id : Int) :
    Int × HerkuleXSimpleAPI σ Table :=
  if api.checkId id false = true then
    let addr_ram := E.getRegisterAddr api.ct E.REG_TORQUE_ENABLE (some E.REGISTER_RAM)
    let r := hkx_read_byte E api id addr_ram E.REGISTER_RAM
    if hkx_print_error E r.2 ≠ 0 then (-1, r.2) else (r.1, r.2)
  else
    (-1, api)

/-- The member function `setTorqueEnabled(id, torque)`. -/
def setTorqueEnabled (E : Env σ Table) (api : HerkuleXSimpleAPI σ Table) (id torque : Int) :
    Int × HerkuleXSimpleAPI σ Table :=
  if api.checkId id E.checkId_broadcast = true then
    let torque := if torque = 1 then 0x60 else torque
    if torque = 0x00 ∨ torque = 0x40 ∨ torque = 0x60 then
      let addr_ram := E.getRegisterAddr api.ct E.REG_TORQUE_ENABLE (some E.REGISTER_RAM)
      let api1 := hkx_write_byte E api id addr_ram torque E.REGISTER_RAM
      if hkx_print_error E api1 = 0 then (1, api1) else (0, api1)
    else
      (0, api)
  else
    (0, api)

/-- The member function `getLed(id)`. -/
def getLed (E : Env σ Table) (api : HerkuleXSimpleAPI σ Table) (id : Int) :
    Int × HerkuleXSimpleAPI σ Table :=
  if api.checkId id false = true then
    let addr := E.getRegisterAddr api.ct E.REG_LED (some E.REGISTER_RAM)
    let r := hkx_read_byte E api id addr E.REGISTER_RAM
    if hkx_print_error E r.2 ≠ 0 then (-1, r.2) else (r.1, r.2)
  else
    (-1, api)

/-- The value `setLed` writes: the colour bits when `led >= 1`, else `0`. -/
def ledValue (E : Env σ Table) (led color : Int) : Int :=
  if led ≥ 1 then
    (if Int.land color E.LED_GREEN ≠ 0 then 0x01 else 0) +
    (if Int.land color E.LED_BLUE ≠ 0 then 0x02 else 0) +
    (if Int.land color E.LED_RED ≠ 0 then 0x04 else 0)
  else
    0

/-- The member function `setLed(id, led, color)`. -/
def setLed (E : Env σ Table) (api : HerkuleXSimpleAPI σ Table) (id led color : Int) :
    Int × HerkuleXSimpleAPI σ Table :=
  if api.checkId id E.checkId_broadcast = true then
    let led := ledValue E led color
    let addr := E.getRegisterAddr api.ct E.REG_LED (some E.REGISTER_RAM)
    if addr ≥ 0 then
      let api1 := hkx_write_byte E api id addr led E.REGISTER_RAM
      if hkx_print_error E api1 = 0 then (1, api1) else (0, api1)
    else
      (0, api)
  else
    (0, api)

/-- The member function `turn(id, velocity)`. -/
def turn (E : Env σ Table) (api : HerkuleXSimpleAPI σ Table) (id velocity : Int) :
    Int × HerkuleXSimpleAPI σ Table :=
  if api.checkId id E.checkId_broadcast = true then
    let api1 := hkx_i_jog E api id 1 velocity
    if hkx_print_error E api1 = 0 then (1, api1) else (0, api1)
  else
    (0, api)

/-- The member function `getGoalPosition(id)`. -/
def getGoalPosition (E : Env σ Table) (api : HerkuleXSimpleAPI σ Table) (id : Int) :
    Int × HerkuleXSimpleAPI σ Table :=
  if api.checkId id E.checkId_broadcast = true then
    let addr := E.getRegisterAddr api.ct E.REG_GOAL_POSITION (some E.REGISTER_RAM)
    let r := hkx_read_byte E api id addr E.REGISTER_RAM
    if hkx_print_error E r.2 ≠ 0 then (-1, r.2) else (r.1, r.2)
  else
    (-1, api)

/-- The member function `setGoalPosition(id, position)`. -/
def setGoalPosition (E : Env σ Table) (api : HerkuleXSimpleAPI σ Table) (id position : Int) :
    Int × HerkuleXSimpleAPI σ Table :=
  if api.checkId id E.checkId_broadcast = true then
    if position ≥ 0 ∧ position ≤ 4095 then
      let api1 := hkx_i_jog E api id 0 position
      if hkx_print_error E api1 = 0 then (1, api1) else (0, api1)
    else
      (0, api)
  else
    (0, api)

/-- The member function `setGoalPosition(id, position, speed)`; the speed is
not used by the source. -/
def setGoalPositionSpeed (E : Env σ Table) (api : HerkuleXSimpleAPI σ Table)
    (id position _speed : Int) : Int × HerkuleXSimpleAPI σ Table :=
  if api.checkId id E.checkId_broadcast = true then
    if position ≥ 0 ∧ position ≤ 4095 then
      let api1 := hkx_i_jog E api id 0 position
      if hkx_print_error E api1 = 0 then (1, api1) else (0, api1)
    else
      (0, api)
  else
    (0, api)

/-- The member function `readCurrentPosition(id)`; it reads the register
`REG_CURRENT_TEMPERATURE`, as the source does. -/
def readCurrentPosition (E : Env σ Table) (api : HerkuleXSimpleAPI σ Table) (id : Int) :
    Int × HerkuleXSimpleAPI σ Table :=
  if api.checkId id false = true then
    let addr := E.getRegisterAddr api.ct E.REG_CURRENT_TEMPERATURE (some E.REGISTER_RAM)
    let r := hkx_read_byte E api id addr E.REGISTER_RAM
    if hkx_print_error E r.2 ≠ 0 then (-1, r.2) else (r.1, r.2)
  else
    (-1, api)

/-- The member function `readCurrentSpeed(id)`: the guarded block is empty. -/
def readCurrentSpeed (_E : Env σ Table) (api : HerkuleXSimpleAPI σ Table) (id : Int) :
    Int × HerkuleXSimpleAPI σ Table :=
  if api.checkId id false = true then (-1, api) else (-1, api)

/-- The member function `readCurrentLoad(id)`: the guarded block is empty. -/
def readCurrentLoad (_E : Env σ Table) (api : HerkuleXSimpleAPI σ Table) (id : Int) :
    Int × HerkuleXSimpleAPI σ Table :=
  if api.checkId id false = true then (-1, api) else (-1, api)

/-- The member function `readCurrentTemperature(id)`.  The `double` result is
an exact rational here: the raw byte times `0.326`. -/
def readCurrentTemperature (E : Env σ Table) (api : HerkuleXSimpleAPI σ Table) (id : Int) :
    ℚ × HerkuleXSimpleAPI σ Table :=
  if api.checkId id false = true then
    let addr := E.getRegisterAddr api.ct E.REG_CURRENT_TEMPERATURE (some E.REGISTER_RAM)
    let r := hkx_read_byte E api id addr E.REGISTER_RAM
    if hkx_print_error E r.2 = 0 then ((r.1 : ℚ) * (326 / 1000), r.2) else (0, r.2)
  else
    (0, api)

/-- The member function `readCurrentVoltage(id)`.  The `double` result is an
exact rational here: the raw byte times `0.074074`. -/
def readCurrentVoltage (E : Env σ Table) (api : HerkuleXSimpleAPI σ Table) (id : Int) :
    ℚ × HerkuleXSimpleAPI σ Table :=
  if api.checkId id false = true then
    let addr := E.getRegisterAddr api.ct E.REG_CURRENT_VOLTAGE (some E.REGISTER_RAM)
    let r := hkx_read_byte E api id addr E.REGISTER_RAM
    if hkx_print_error E r.2 = 0 then ((r.1 : ℚ) * (74074 / 1000000), r.2) else (0, r.2)
  else
    (0, api)

/-! ### Generic register access -/

/-- The control table used by `getSetting` and `setSetting`: the one of
`device` when `getRegisterTable` knows it, else the table of the object. -/
def settingTable (E : Env σ Table) (api : HerkuleXSimpleAPI σ Table) (device : Int) :
    Option Table :=
  match E.getRegisterTable device with
  | some t => some t
  | none => api.ct

/-- The bank `getSetting` reads for the selector `reg_type`. -/
def getSettingType (E : Env σ Table) (infos : RegisterInfos) (reg_type : Int) : Int :=
  if reg_type = E.REGISTER_AUTO then
    if infos.reg_addr_rom ≥ 0 ∧ infos.reg_addr_ram ≥ 0 then E.REGISTER_RAM
    else if infos.reg_addr_rom ≥ 0 then E.REGISTER_ROM
    else if infos.reg_addr_ram ≥ 0 then E.REGISTER_RAM
    else reg_type
  else
    reg_type

/-- The "Read value" step of `getSetting`; `value` is returned untouched when
no branch applies. -/
def getSettingRead (E : Env σ Table) (api : HerkuleXSimpleAPI σ Table) (id : Int)
    (infos : RegisterInfos) (reg_type value : Int) : Int × HerkuleXSimpleAPI σ Table :=
  if reg_type = E.REGISTER_ROM then
    if infos.reg_size = 1 then hkx_read_byte E api id infos.reg_addr_rom E.REGISTER_ROM
    else if infos.reg_size = 2 then hkx_read_word E api id infos.reg_addr_rom E.REGISTER_ROM
    else (value, api)
  else if reg_type = E.REGISTER_RAM then
    if infos.reg_size = 1 then hkx_read_byte E api id infos.reg_addr_ram E.REGISTER_RAM
    else if infos.reg_size = 2 then hkx_read_word E api id infos.reg_addr_ram E.REGISTER_RAM
    else (value, api)
  else
    (value, api)

/-- The member function `getSetting(id, reg_name, reg_type, device)`. -/
def getSetting (E : Env σ Table) (api : HerkuleXSimpleAPI σ Table)
    (id reg_name reg_type device : Int) : Int × HerkuleXSimpleAPI σ Table :=
  if api.checkId id false = true then
    match settingTable E api device with
    | some cctt =>
      match E.getRegisterInfos cctt reg_name with
      | some infos =>
        let reg_type := getSettingType E infos reg_type
        let r := getSettingRead E api id infos reg_type (-1)
        if hkx_print_error E r.2 = 0 then
          if r.1 < infos.reg_value_min ∧ r.1 > infos.reg_value_max then (-1, r.2)
          else (r.1, r.2)
        else
          (-1, r.2)
      | none => (-1, api)
    | none => (-1, api)
  else
    (-1, api)

/-- The bank or banks `setSetting` writes for the selector `reg_type`. -/
def setSettingType (E : Env σ Table) (infos : RegisterInfos) (reg_type : Int) : Int :=
  if reg_type = E.REGISTER_AUTO then
    if infos.reg_addr_rom ≥ 0 ∧ infos.reg_addr_ram ≥ 0 then E.REGISTER_BOTH
    else if infos.reg_addr_rom ≥ 0 then E.REGISTER_ROM
    else if infos.reg_addr_ram ≥ 0 then E.REGISTER_RAM
    else reg_type
  else
    reg_type

/-- One "Write value" step of `setSetting`: a byte or a word according to the
size of the register, nothing for another size. -/
def setSettingWrite (E : Env σ Table) (api : HerkuleXSimpleAPI σ Table)
    (id : Int) (infos : RegisterInfos) (addr reg_value bank : Int) : HerkuleXSimpleAPI σ Table :=
  if infos.reg_size = 1 then hkx_write_byte E api id addr reg_value bank
  else if infos.reg_size = 2 then hkx_write_word E api id addr reg_value bank
  else api

/-- The "Set value(s)" step of `setSetting`, from `status = 0`. -/
def setSettingValues (E : Env σ Table) (api : HerkuleXSimpleAPI σ Table)
    (id : Int) (infos : RegisterInfos) (reg_value reg_type : Int) :
    Int × HerkuleXSimpleAPI σ Table :=
  let r1 : Int × HerkuleXSimpleAPI σ Table :=
    if reg_type = E.REGISTER_ROM ∨ reg_type = E.REGISTER_BOTH then
      let api1 := setSettingWrite E api id infos infos.reg_addr_rom reg_value E.REGISTER_ROM
      if hkx_print_error E api1 = 0 then (1, api1) else (0, api1)
    else
      (0, api)
  if reg_type = E.REGISTER_RAM ∨ reg_type = E.REGISTER_BOTH then
    let api2 := setSettingWrite E r1.2 id infos infos.reg_addr_ram reg_value E.REGISTER_RAM
    if hkx_print_error E api2 = 0 then (1, api2) else (r1.1, api2)
  else
    r1

/-- The member function `setSetting(id, reg_name, reg_value, reg_type, device)`. -/
def setSetting (E : Env σ Table) (api : HerkuleXSimpleAPI σ Table)
    (id reg_name reg_value reg_type device : Int) : Int × HerkuleXSimpleAPI σ Table :=
  if api.checkId id E.checkId_broadcast = true then
    match settingTable E api device with
    | some cctt =>
      match E.getRegisterInfos cctt reg_name with
      | some infos =>
        if infos.reg_access_mode = E.READ_WRITE then
          if reg_value ≥ infos.reg_value_min ∧ reg_value ≤ infos.reg_value_max then
            setSettingValues E api id infos reg_value (setSettingType E infos reg_type)
          else
            (0, api)
        else
          (0, api)
      | none => (0, api)
    | none => (0, api)
  else
    (0, api)

/-! ### Scan -/

/-- The first bound of the scan after the "Check start/stop boundaries" step. -/
def scanStart (api : HerkuleXSimpleAPI σ Table) (start : Int) : Int :=
  if start < 0 ∨ start > api.maxId - 1 then 0 else start

/-- The last bound of the scan after the "Check start/stop boundaries" step;
`start` is the first bound already corrected. -/
def scanStop (api : HerkuleXSimpleAPI σ Table) (start stop : Int) : Int :=
  if stop < 1 ∨ stop > api.maxId ∨ stop < start then api.maxId else stop

/-- What `servoScan` does for an id that answered the ping, after the ping:
the led is switched on, the `TRACE_1` arguments are evaluated when that macro
evaluates them, the led is switched off. -/
def scanFound (E : Env σ Table) (api : HerkuleXSimpleAPI σ Table) (id : Int) :
    HerkuleXSimpleAPI σ Table :=
  let api1 := (setLed E api id 1 E.LED_GREEN).2
  let api2 :=
    if E.TRACE_1_enabled = true then
      let a := (readCurrentPosition E api1 id).2
      let a := (readCurrentSpeed E a id).2
      let a := (getTorqueEnabled E a id).2
      let a := (readCurrentLoad E a id).2
      (getSetting E a id E.REG_BAUD_RATE E.getSetting_reg_type E.getSetting_device).2
    else
      api1
  (setLed E api2 id 0 E.setLed_color).2

/-- The loop `for (int id = start; id <= stop; id++)` of `servoScan`, from the
current `id`, with the ids found so far. -/
def scanLoop (E : Env σ Table) (stop : Int) (id : Int) (ids : List Int)
    (api : HerkuleXSimpleAPI σ Table) : List Int × HerkuleXSimpleAPI σ Table :=
  if id ≤ stop then
    let r := hkx_ping E api id
    if r.1 = true then
      scanLoop E stop (id + 1) (ids ++ [id]) (scanFound E r.2.2 id)
    else
      scanLoop E stop (id + 1) ids r.2.2
  else
    (ids, api)
termination_by (stop + 1 - id).toNat
decreasing_by all_goals omega

/-- The member function `servoScan(start, stop)`. -/
def servoScan (E : Env σ Table) (api : HerkuleXSimpleAPI σ Table) (start stop : Int) :
    List Int × HerkuleXSimpleAPI σ Table :=
  let start := scanStart api start
  let stop := scanStop api start stop
  scanLoop E stop start [] api

end HerkuleXSimpleAPI

/-! ## Vocabulary of the statements -/

/-- The ids `start, start + 1, ..., stop` in ascending order (none when
`stop < start`). -/
def idRange (start stop : Int) : List Int :=
  (List.range (stop + 1 - start).toNat).map (fun (k : Nat) => start + (k : Int))

/-- The id of a ping, nothing for another call. -/
def BusCall.pingId : BusCall → Option Int
  | .ping id => some id
  | _ => none

/-- The ids pinged in a record of calls, in the order of the pings. -/
def pingIds (calls : List BusCall) : List Int :=
  calls.filterMap BusCall.pingId

/-! ## A simulated device

A concrete environment on which the definitions can be run: a bus whose
register banks store what is written, on which a chosen set of ids answers a
ping, and on which the writes to a chosen set of banks end in an error (none in
`simEnv`, where every read and write succeeds). -/

/-- State of the simulated bus: the cells written so far, most recent first,
each as `(id, bank, address, value)`; the communication status left by the
last ping; the error status left by the last transaction. -/
structure SimState where
  mem : List (Int × Int × Int × Int)
  com : Int
  err : Int
deriving DecidableEq, Repr

/-- Content of the cell `(id, bank, addr)`: the last value written there, `0`
for a cell never written. -/
def SimState.load (s : SimState) (id bank addr : Int) : Int :=
  match s.mem.find? (fun c => c.1 = id ∧ c.2.1 = bank ∧ c.2.2.1 = addr) with
  | some c => c.2.2.2
  | none => 0

/-- The state after `value` is written to the cell `(id, bank, addr)`, the
transaction ending with the error status `err`. -/
def SimState.store (s : SimState) (id bank addr value err : Int) : SimState :=
  { s with mem := (id, bank, addr, value) :: s.mem, err := err }

/-- Sample values for the header constants.  The servo series are ordered as
the comparisons of the constructor presuppose (Dynamixel series below
`SERVO_HERKULEX`), the register types are pairwise different. -/
def simDecls : Decls where
  REGISTER_AUTO := 0
  REGISTER_ROM := 1
  REGISTER_RAM := 2
  REGISTER_BOTH := 3
  READ_WRITE := 1
  COMM_RXSUCCESS := 1
  SERVO_UNKNOWN := 0
  SERVO_MX := 50
  SERVO_XL := 60
  SERVO_PRO := 70
  SERVO_HERKULEX := 100
  SERVO_DRS := 110
  SERVO_DRS_0401 := 113
  SERVO_DRS_0402 := 114
  SERVO_DRS_0601 := 115
  SERVO_DRS_0602 := 116
  SERIAL_USB2AX := 2
  LED_GREEN := 1
  LED_BLUE := 2
  LED_RED := 4
  REG_MODEL_NUMBER := 0
  REG_FIRMWARE_VERSION := 1
  REG_ID := 2
  REG_BAUD_RATE := 3
  REG_MIN_POSITION := 4
  REG_MAX_POSITION := 5
  REG_TORQUE_ENABLE := 6
  REG_LED := 7
  REG_GOAL_POSITION := 8
  REG_CURRENT_TEMPERATURE := 9
  REG_CURRENT_VOLTAGE := 10
  checkId_broadcast := true
  setLed_color := 1
  getSetting_reg_type := 0
  getSetting_device := 0
  TRACE_1_enabled := false

/-- A sample control table: rows `(reg_name, infos)`. -/
abbrev SimTable : Type := List (Int × RegisterInfos)

/-- A small table in the shape of the HerkuleX ones: a read-only word in ROM
(model number), a writable byte in both banks (id), a writable word in both
banks (min position), a writable byte in RAM only (led), a read-only byte in
RAM only (temperature). -/
def simTable : SimTable :=
  [ (0, ⟨2, 0, 0, -1, -1, -1⟩),
    (2, ⟨1, 1, 6, 0, 0, 253⟩),
    (4, ⟨2, 1, 26, 20, 0, 1023⟩),
    (7, ⟨1, 1, -1, 53, 0, 7⟩),
    (9, ⟨1, 0, -1, 55, 0, 255⟩) ]

/-- Row lookup in a sample table. -/
def SimTable.infos (t : SimTable) (reg_name : Int) : Option RegisterInfos :=
  (t.find? (fun r => r.1 = reg_name)).map (fun r => r.2)

/-- Address lookup in a sample table: the RAM address for the RAM bank, the ROM
address otherwise, `-1` without a table or a row. -/
def SimTable.addr (t : Option SimTable) (reg_name : Int) (reg_mode : Option Int) : Int :=
  match t with
  | none => -1
  | some t =>
    match t.infos reg_name with
    | none => -1
    | some i => if reg_mode = some 2 then i.reg_addr_ram else i.reg_addr_rom

/-- The sample control tables: every family uses `simTable` with one row
dropped per family, so that the six tables are different; no table is
registered for a `device`. -/
def simTables : ControlTables SimTable where
  DRS0101_control_table := simTable
  DRS0x01_control_table := simTable.take 4
  DRS0x02_control_table := simTable.take 3
  MX_control_table := simTable.take 2
  XL320_control_table := simTable.take 1
  PRO_control_table := []
  getRegisterTable := fun _ => none
  getRegisterInfos := SimTable.infos
  getRegisterAddr := SimTable.addr

/-- The simulated protocol layer; the ids in `responders` answer a ping, a
write to a bank listed in `failing` is stored but ends with the error status 1,
every other read or write ends with the error status 0. -/
def simBus (responders failing : List Int) : Bus SimState where
  hkx_ping := fun s id =>
    (decide (id ∈ responders), ⟨0, 0⟩,
      { s with com := if id ∈ responders then 1 else 6, err := if id ∈ responders then 0 else 1 })
  hkx_reboot := fun s _ => s
  hkx_reset := fun s _ _ => s
  hkx_read_byte := fun s id addr bank => (s.load id bank addr, { s with err := 0 })
  hkx_read_word := fun s id addr bank => (s.load id bank addr, { s with err := 0 })
  hkx_write_byte := fun s id addr value bank =>
    s.store id bank addr value (if bank ∈ failing then 1 else 0)
  hkx_write_word := fun s id addr value bank =>
    s.store id bank addr value (if bank ∈ failing then 1 else 0)
  hkx_i_jog := fun s _ _ _ => { s with err := 0 }
  hkx_print_error := fun s => s.err
  hkx_get_com_status := fun s => s.com

/-- The simulated environment with the servos `responders` on the bus and
failing writes to the banks `failing`. -/
def faultyEnv (responders failing : List Int) : Env SimState SimTable :=
  { simDecls, simTables, simBus responders failing with }

/-- The simulated environment with the servos `responders` on the bus, where
every read and write succeeds. -/
def simEnv (responders : List Int) : Env SimState SimTable :=
  faultyEnv responders []

/-- A controller on the simulated bus with `maxId = 253`, the table
`simTable`, and nothing transmitted yet. -/
def simApi : HerkuleXSimpleAPI SimState SimTable where
  ackPolicy := 1
  maxId := 253
  protocolVersion := 1
  serialDevice := 0
  ct := some simTable
  bus := ⟨[], 0, 0⟩
  calls := []

/-- An object before its constructor has run: no table, `maxId` not yet set,
and a serial device that is not the USB2AX adapter. -/
def simPre : HerkuleXSimpleAPI SimState SimTable where
  ackPolicy := 0
  maxId := 0
  protocolVersion := 0
  serialDevice := 0
  ct := none
  bus := ⟨[], 0, 0⟩
  calls := []

/-- A controller like `simApi`, on a bus where the led register of servo 5
(RAM address 53, bounds 0 and 7 in `simTable`) holds 200. -/
def simApiLed200 : HerkuleXSimpleAPI SimState SimTable :=
  { simApi with bus := ⟨[(5, 2, 53, 200)], 0, 0⟩ }

/-! ## The serial port on Windows

A shallow embedding of `src/SerialPortWindows.cpp`.  A `HANDLE` is an integer,
a `BOOL` is an integer that is `FALSE` when 0.  The `double` members are exact
rationals: the arithmetic is the one of the source without rounding.  The calls
to the operating system are recorded, in order, in the member `os`; what they
return is an input of the functions that look at it. -/

/-- The value `INVALID_HANDLE_VALUE` of the Windows SDK, `(HANDLE)-1`. -/
def INVALID_HANDLE_VALUE : Int := -1

/-- The value `FALSE` of the Windows SDK. -/
def FALSE : Int := 0

/-- The flag `PURGE_TXABORT` of the Windows SDK. -/
def PURGE_TXABORT : Int := 1

/-- The flag `PURGE_RXABORT` of the Windows SDK. -/
def PURGE_RXABORT : Int := 2

/-- The flag `PURGE_TXCLEAR` of the Windows SDK. -/
def PURGE_TXCLEAR : Int := 4

/-- The flag `PURGE_RXCLEAR` of the Windows SDK. -/
def PURGE_RXCLEAR : Int := 8

/-- One call to the operating system made by the serial port, with the
arguments that tell the calls apart. -/
inductive OsCall where
  | CreateFile (name : String)
  | GetCommState (h : Int)
  | SetCommState (h baudRate : Int)
  | SetCommMask (h mask : Int)
  | SetupComm (h rx tx : Int)
  | PurgeComm (h flags : Int)
  | ClearCommError (h : Int)
  | GetCommTimeouts (h : Int)
  | SetCommTimeouts (h : Int)
  | CloseHandle (h : Int)
deriving DecidableEq, Repr

/-- What the operating system returns to the calls of `openLink`, one field per
call in the order of the source: the handle returned by `CreateFile`, then the
`BOOL` returned by each of the eight calls that follow. -/
structure OpenOutcomes where
  CreateFile : Int
  GetCommState : Int
  SetCommState : Int
  SetCommMask : Int
  SetupComm : Int
  PurgeComm : Int
  ClearCommError : Int
  GetCommTimeouts : Int
  SetCommTimeouts : Int
deriving DecidableEq, Repr

/-- The member variables of `SerialPortWindows` (with those it inherits from
`SerialPort`) that the source reads or writes, and the record of the calls to
the operating system. -/
structure SerialPortWindows where
  ttyDeviceName : String
  ttyDeviceFileDescriptor : Int
  ttyDeviceBaudRate : Int
  byteTransfertTime : ℚ
  latencyTime : Int
  packetStartTime : ℚ
  packetWaitTime : ℚ
  os : List OsCall
deriving DecidableEq

namespace SerialPortWindows

/-- The member function `setBaudRate(baud)`; `checkBaudRate` belongs to the base
class `SerialPort` and is a parameter. -/
def setBaudRate (checkBaudRate : Int → Int) (s : SerialPortWindows) (baud : Int) :
    SerialPortWindows :=
  let s := { s with ttyDeviceBaudRate := checkBaudRate baud }
  { s with byteTransfertTime := (1000 / (s.ttyDeviceBaudRate : ℚ)) * 10 }

/-- The constructor `SerialPortWindows(deviceName, baud, serialDevice,
servoDevices)`, run on an object `pre` holding the initial values of the other
members; `autoselectSerialPort` is the name the function of that name returns. -/
def ctor (checkBaudRate : Int → Int) (autoselectSerialPort : String) (pre : SerialPortWindows)
    (deviceName : String) (baud : Int) : SerialPortWindows :=
  let s := { pre with ttyDeviceFileDescriptor := 0 }
  let s :=
    if deviceName.isEmpty = true ∨ deviceName = "auto" then
      { s with ttyDeviceName := autoselectSerialPort }
    else
      { s with ttyDeviceName := deviceName }
  if s.ttyDeviceName ≠ "null" then setBaudRate checkBaudRate s baud else s

/-- The member function `flush()`. -/
def flush (s : SerialPortWindows) : SerialPortWindows :=
  if s.ttyDeviceFileDescriptor ≠ INVALID_HANDLE_VALUE then
    { s with os := s.os ++
        [OsCall.PurgeComm s.ttyDeviceFileDescriptor (Int.lor PURGE_RXABORT PURGE_RXCLEAR)] }
  else
    s

/-- The member function `closeLink()`. -/
def closeLink (s : SerialPortWindows) : SerialPortWindows :=
  if s.ttyDeviceFileDescriptor ≠ INVALID_HANDLE_VALUE then
    let s := flush s
    let s := { s with os := s.os ++ [OsCall.CloseHandle s.ttyDeviceFileDescriptor] }
    { s with ttyDeviceFileDescriptor := INVALID_HANDLE_VALUE }
  else
    s

/-- The label `OPEN_LINK_ERROR` of `openLink`: close and return 0. -/
def openLinkError (s : SerialPortWindows) : Int × SerialPortWindows :=
  (0, closeLink s)

/-- The member function `openLink()`, the operating system answering `o`. -/
def openLink (o : OpenOutcomes) (s : SerialPortWindows) : Int × SerialPortWindows :=
  let s := closeLink s
  let s := { s with os := s.os ++ [OsCall.CreateFile s.ttyDeviceName],
                    ttyDeviceFileDescriptor := o.CreateFile }
  if s.ttyDeviceFileDescriptor = INVALID_HANDLE_VALUE then openLinkError s else
  let s := { s with os := s.os ++ [OsCall.GetCommState s.ttyDeviceFileDescriptor] }
  if o.GetCommState = FALSE then openLinkError s else
  let s := { s with os := s.os ++
    [OsCall.SetCommState s.ttyDeviceFileDescriptor s.ttyDeviceBaudRate] }
  if o.SetCommState = FALSE then openLinkError s else
  let s := { s with os := s.os ++ [OsCall.SetCommMask s.ttyDeviceFileDescriptor 0] }
  if o.SetCommMask = FALSE then openLinkError s else
  let s := { s with os := s.os ++ [OsCall.SetupComm s.ttyDeviceFileDescriptor 4096 4096] }
  if o.SetupComm = FALSE then openLinkError s else
  let s := { s with os := s.os ++ [OsCall.PurgeComm s.ttyDeviceFileDescriptor
    (Int.lor (Int.lor (Int.lor PURGE_TXABORT PURGE_TXCLEAR) PURGE_RXABORT) PURGE_RXCLEAR)] }
  if o.PurgeComm = FALSE then openLinkError s else
  let s := { s with os := s.os ++ [OsCall.ClearCommError s.ttyDeviceFileDescriptor] }
  if o.ClearCommError = FALSE then openLinkError s else
  let s := { s with os := s.os ++ [OsCall.GetCommTimeouts s.ttyDeviceFileDescriptor] }
  if o.GetCommTimeouts = FALSE then openLinkError s else
  let s := { s with os := s.os ++ [OsCall.SetCommTimeouts s.ttyDeviceFileDescriptor] }
  if o.SetCommTimeouts = FALSE then openLinkError s else
  (1, s)

/-- The member function `getTime()`: the counter read by
`QueryPerformanceCounter`, as a `double`. -/
def getTime (counter : Int) : ℚ :=
  (counter : ℚ)

/-- The member function `setTimeOut(int packetLength)`; `counter` is what
`QueryPerformanceCounter` returns to `getTime`. -/
def setTimeOut (s : SerialPortWindows) (counter packetLength : Int) : SerialPortWindows :=
  let s := { s with packetStartTime := getTime counter }
  { s with packetWaitTime :=
      s.byteTransfertTime * (packetLength : ℚ) + 2 * (s.latencyTime : ℚ) }

/-- The member function `setTimeOut(double msec)`; `counter` is what
`QueryPerformanceCounter` returns to `getTime`. -/
def setTimeOutMsec (s : SerialPortWindows) (counter : Int) (msec : ℚ) : SerialPortWindows :=
  let s := { s with packetStartTime := getTime counter }
  { s with packetWaitTime := msec }

/-- The local `time_elapsed` of `checkTimeOut`, in ms: `counterEnd` is the
counter read by `QueryPerformanceCounter`, `freq` the frequency given by
`QueryPerformanceFrequency`. -/
def timeElapsed (s : SerialPortWindows) (counterEnd freq : Int) : ℚ :=
  (((counterEnd : ℚ) - s.packetStartTime) / (freq : ℚ)) * 1000

/-- The member function `checkTimeOut()`; `counter` is what
`QueryPerformanceCounter` returns to the `getTime` of the reset. -/
def checkTimeOut (s : SerialPortWindows) (counterEnd freq counter : Int) :
    Int × SerialPortWindows :=
  let time_elapsed := timeElapsed s counterEnd freq
  if time_elapsed > s.packetWaitTime then
    (1, s)
  else if time_elapsed < 0 then
    (0, { s with packetStartTime := getTime counter })
  else
    (0, s)

end SerialPortWindows

/-- A serial port that holds the handle 7, with a timer started at the counter
10 and a wait time of 5 ms. -/
def simPort : SerialPortWindows where
  ttyDeviceName := "COM3"
  ttyDeviceFileDescriptor := 7
  ttyDeviceBaudRate := 115200
  byteTransfertTime := 25 / 288
  latencyTime := 2
  packetStartTime := 10
  packetWaitTime := 5
  os := []

/-- Answers of the operating system to `openLink` where every call succeeds and
`CreateFile` returns the handle 9. -/
def simOpenOk : OpenOutcomes :=
  ⟨9, 1, 1, 1, 1, 1, 1, 1, 1⟩

namespace HerkuleXSimpleAPI

variable {σ Table : Type}

/-! ## Properties -/

/-- An id outside `[0, maxId]` that is not the broadcast id fails `checkId`,
whatever the broadcast flag. -/
theorem checkId_eq_false_of_invalid (api : HerkuleXSimpleAPI σ Table) (id : Int) (b : Bool)
    (hrange : ¬ (0 ≤ id ∧ id ≤ api.maxId)) (hbc : id ≠ BROADCAST_ID) :
    api.checkId id b = false := by
  unfold checkId
  have h : ¬ ((id ≥ 0 ∧ id ≤ api.maxId) ∨ (id = BROADCAST_ID ∧ b = true)) := by
    rintro (h | h)
    · exact hrange h
    · exact hbc h.1
  rw [if_neg h]

/-- Every operation that takes an id, `ping` apart, gives its failure value and
leaves the object as it was (so transmits nothing) on an id outside
`[0, maxId]` that is not the broadcast id. -/
theorem guarded_operations_reject_invalid_id (E : Env σ Table) (api : HerkuleXSimpleAPI σ Table)
    (id : Int) (hrange : ¬ (0 ≤ id ∧ id ≤ api.maxId)) (hbc : id ≠ BROADCAST_ID) :
    reboot E api id = api ∧
    (∀ setting, reset E api id setting = api) ∧
    readModelNumber E api id = (-1, api) ∧
    readFirmwareVersion E api id = (-1, api) ∧
    (∀ new_id, changeId E api id new_id = (0, api)) ∧
    (∀ baudnum, changeBaudRate E api id baudnum = (0, api)) ∧
    (∀ min max, getMinMaxPositions E api id min max = (min, max, api)) ∧
    (∀ min max, setMinMaxPositions E api id min max = (0, api)) ∧
    getTorqueEnabled E api id = (-1, api) ∧
    (∀ torque, setTorqueEnabled E api id torque = (0, api)) ∧
    getLed E api id = (-1, api) ∧
    (∀ led color, setLed E api id led color = (0, api)) ∧
    (∀ velocity, turn E api id velocity = (0, api)) ∧
    getGoalPosition E api id = (-1, api) ∧
    (∀ position, setGoalPosition E api id position = (0, api)) ∧
    (∀ position speed, setGoalPositionSpeed E api id position speed = (0, api)) ∧
    readCurrentPosition E api id = (-1, api) ∧
    readCurrentSpeed E api id = (-1, api) ∧
    readCurrentLoad E api id = (-1, api) ∧
    readCurrentTemperature E api id = (0, api) ∧
    readCurrentVoltage E api id = (0, api) ∧
    (∀ reg_name reg_type device, getSetting E api id reg_name reg_type device = (-1, api)) ∧
    (∀ reg_name reg_value reg_type device,
      setSetting E api id reg_name reg_value reg_type device = (0, api)) := by
  have hc : ∀ b, api.checkId id b = false := fun b =>
    checkId_eq_false_of_invalid api id b hrange hbc
  refine ⟨?_, ?_, ?_, ?_, ?_, ?_, ?_, ?_, ?_, ?_, ?_, ?_, ?_, ?_, ?_, ?_, ?_, ?_, ?_, ?_, ?_, ?_, ?_⟩
  · simp [reboot, hc]
  · intro setting; simp [reset, hc]
  · simp [readModelNumber, hc]
  · simp [readFirmwareVersion, hc]
  · intro new_id; simp [changeId, hc]
  · intro baudnum; simp [changeBaudRate, hc]
  · intro min max; simp [getMinMaxPositions, hc]
  · intro min max; simp [setMinMaxPositions, hc]
  · simp [getTorqueEnabled, hc]
  · intro torque; simp [setTorqueEnabled, hc]
  · simp [getLed, hc]
  · intro led color; simp [setLed, hc]
  · intro velocity; simp [turn, hc]
  · simp [getGoalPosition, hc]
  · intro position; simp [setGoalPosition, hc]
  · intro position speed; simp [setGoalPositionSpeed, hc]
  · simp [readCurrentPosition, hc]
  · simp [readCurrentSpeed]
  · simp [readCurrentLoad]
  · simp [readCurrentTemperature, hc]
  · simp [readCurrentVoltage, hc]
  · intro reg_name reg_type device; simp [getSetting, hc]
  · intro reg_name reg_value reg_type device; simp [setSetting, hc]

/-- C1 (the code departs from the claim at `ping`): for an id outside
`[0, maxId]` that is not the broadcast id, `checkId` fails whatever the
broadcast flag, yet `ping(id, status)`, which does not consult `checkId`, calls
the primitive `hkx_ping` once with that id and returns its answer. -/
theorem ping_reaches_bus_on_invalid_id (E : Env σ Table) (api : HerkuleXSimpleAPI σ Table)
    (id : Int) (hrange : ¬ (0 ≤ id ∧ id ≤ api.maxId)) (hbc : id ≠ BROADCAST_ID) :
    (∀ b, api.checkId id b = false) ∧
    (ping E api id).2.2.calls = api.calls ++ [BusCall.ping id] ∧
    (ping E api id).1 = (E.hkx_ping api.bus id).1 ∧
    (ping E api id).2.2.bus = (E.hkx_ping api.bus id).2.2 := by
  refine ⟨fun b => checkId_eq_false_of_invalid api id b hrange hbc, ?_, ?_, ?_⟩
  · simp [ping, hkx_ping]
  · simp [ping, hkx_ping]
  · simp [ping, hkx_ping]

/-- Instance of `ping_reaches_bus_on_invalid_id`: `ping(300)` on the simulated
bus, with `maxId = 253`, puts one ping of id 300 on the bus. -/
theorem ping_reaches_bus_on_invalid_id_witness :
    simApi.checkId 300 true = false ∧ simApi.checkId 300 false = false ∧
    (ping (simEnv [5]) simApi 300).2.2.calls = [BusCall.ping 300] :=
  have h := ping_reaches_bus_on_invalid_id (simEnv [5]) simApi 300 (by decide) (by decide)
  ⟨h.1 true, h.1 false, h.2.1⟩

/-- C2: `checkId(id, broadcast)` is true exactly when `0 <= id <= maxId`, or
`id` is the broadcast id 254 and `broadcast` is true; with `maxId` 252 or 253,
`checkId(254, false)` is false and `checkId(id, b)` is false for every
`id < 0` or `id > 254`, whatever `b`. -/
theorem checkId_spec (api : HerkuleXSimpleAPI σ Table) :
    (∀ (id : Int) (broadcast : Bool),
      api.checkId id broadcast = true ↔
        (0 ≤ id ∧ id ≤ api.maxId) ∨ (id = 254 ∧ broadcast = true)) ∧
    (api.maxId = 252 ∨ api.maxId = 253 →
      api.checkId 254 false = false ∧
      ∀ (id : Int) (b : Bool), id < 0 ∨ id > 254 → api.checkId id b = false) := by
  have hiff : ∀ (id : Int) (broadcast : Bool),
      api.checkId id broadcast = true ↔
        (0 ≤ id ∧ id ≤ api.maxId) ∨ (id = 254 ∧ broadcast = true) := by
    intro id broadcast
    unfold checkId BROADCAST_ID
    by_cases h : (id ≥ 0 ∧ id ≤ api.maxId) ∨ (id = 254 ∧ broadcast = true)
    · rw [if_pos h]; simpa using h
    · rw [if_neg h]; simpa using h
  refine ⟨hiff, ?_⟩
  intro hmax
  refine ⟨?_, ?_⟩
  · cases hc : api.checkId 254 false
    · rfl
    · have := (hiff 254 false).1 hc
      rcases this with h1 | h1
      · rcases hmax with h | h <;> rw [h] at h1 <;> omega
      · exact absurd h1.2 (by decide)
  · intro id b hid
    cases hc : api.checkId id b
    · rfl
    · have := (hiff id b).1 hc
      rcases this with h1 | h1
      · rcases hmax with h | h <;> rw [h] at h1 <;> omega
      · omega

/-- Instance of `checkId_spec` on a controller with `maxId = 253`. -/
theorem checkId_spec_witness :
    simApi.checkId 254 false = false ∧ simApi.checkId 300 true = false ∧
    simApi.checkId (-1) true = false :=
  have h := (checkId_spec simApi).2 (Or.inr rfl)
  ⟨h.1, h.2 300 true (by decide), h.2 (-1) true (by decide)⟩

/-- C3: for a valid id and a register found in the control table whose access
mode is not `READ_WRITE`, `setSetting` returns 0 for every value and every bank
selector, and calls no primitive of the bus (so no `hkx_write_byte` and no
`hkx_write_word`): the object is left as it was. -/
theorem setSetting_read_only (E : Env σ Table) (api : HerkuleXSimpleAPI σ Table)
    (id reg_name reg_value reg_type device : Int) (cctt : Table) (infos : RegisterInfos)
    (hid : api.checkId id E.checkId_broadcast = true)
    (htable : settingTable E api device = some cctt)
    (hfound : E.getRegisterInfos cctt reg_name = some infos)
    (haccess : infos.reg_access_mode ≠ E.READ_WRITE) :
    (setSetting E api id reg_name reg_value reg_type device).1 = 0 ∧
    (setSetting E api id reg_name reg_value reg_type device).2.calls = api.calls ∧
    (setSetting E api id reg_name reg_value reg_type device).2 = api := by
  simp [setSetting, hid, htable, hfound, haccess]

/-- Instance of `setSetting_read_only`: writing the read-only model number of
servo 5 on the simulated bus. -/
theorem setSetting_read_only_witness :
    (setSetting (simEnv [5]) simApi 5 0 1 (simEnv [5]).REGISTER_ROM 0).1 = 0 ∧
    (setSetting (simEnv [5]) simApi 5 0 1 (simEnv [5]).REGISTER_ROM 0).2.calls = [] :=
  have h := setSetting_read_only (simEnv [5]) simApi 5 0 1 (simEnv [5]).REGISTER_ROM 0 simTable
    ⟨2, 0, 0, -1, -1, -1⟩ (by decide) (by decide) (by decide) (by decide)
  ⟨h.1, h.2.1⟩

/-- C4: for a valid id, `setSetting` returns 0 and calls no primitive of the bus
(the object is left as it was) when the register name is not in the control
table, and when the register is found and writable but `reg_value` is below
`reg_value_min` or above `reg_value_max`. -/
theorem setSetting_rejects_before_transmission (E : Env σ Table)
    (api : HerkuleXSimpleAPI σ Table)
    (id reg_name reg_value reg_type device : Int) (cctt : Table)
    (hid : api.checkId id E.checkId_broadcast = true)
    (htable : settingTable E api device = some cctt)
    (hbad : E.getRegisterInfos cctt reg_name = none ∨
      ∃ infos, E.getRegisterInfos cctt reg_name = some infos ∧
        infos.reg_access_mode = E.READ_WRITE ∧
        (reg_value < infos.reg_value_min ∨ reg_value > infos.reg_value_max)) :
    (setSetting E api id reg_name reg_value reg_type device).1 = 0 ∧
    (setSetting E api id reg_name reg_value reg_type device).2.calls = api.calls ∧
    (setSetting E api id reg_name reg_value reg_type device).2 = api := by
  rcases hbad with hnone | ⟨infos, hfound, haccess, hrange⟩
  · simp [setSetting, hid, htable, hnone]
  · have hnot : ¬ (reg_value ≥ infos.reg_value_min ∧ reg_value ≤ infos.reg_value_max) := by
      omega
    simp only [setSetting, hid, htable, hfound, haccess, if_true, if_neg hnot, and_self]

/-- Instances of `setSetting_rejects_before_transmission` on the simulated bus:
the value 254 for the id register (bounds 0 and 253), the value -1 for the same
register, and a register name (99) that the table does not hold. -/
theorem setSetting_rejects_before_transmission_witness :
    ((setSetting (simEnv [5]) simApi 5 2 254 (simEnv [5]).REGISTER_AUTO 0).1 = 0 ∧
     (setSetting (simEnv [5]) simApi 5 2 254 (simEnv [5]).REGISTER_AUTO 0).2.calls = []) ∧
    ((setSetting (simEnv [5]) simApi 5 2 (-1) (simEnv [5]).REGISTER_RAM 0).1 = 0 ∧
     (setSetting (simEnv [5]) simApi 5 2 (-1) (simEnv [5]).REGISTER_RAM 0).2.calls = []) ∧
    ((setSetting (simEnv [5]) simApi 5 99 1 (simEnv [5]).REGISTER_AUTO 0).1 = 0 ∧
     (setSetting (simEnv [5]) simApi 5 99 1 (simEnv [5]).REGISTER_AUTO 0).2.calls = []) :=
  have h1 := setSetting_rejects_before_transmission (simEnv [5]) simApi 5 2 254
    (simEnv [5]).REGISTER_AUTO 0 simTable (by decide) (by decide)
    (Or.inr ⟨⟨1, 1, 6, 0, 0, 253⟩, by decide, by decide, Or.inr (by decide)⟩)
  have h2 := setSetting_rejects_before_transmission (simEnv [5]) simApi 5 2 (-1)
    (simEnv [5]).REGISTER_RAM 0 simTable (by decide) (by decide)
    (Or.inr ⟨⟨1, 1, 6, 0, 0, 253⟩, by decide, by decide, Or.inl (by decide)⟩)
  have h3 := setSetting_rejects_before_transmission (simEnv [5]) simApi 5 99 1
    (simEnv [5]).REGISTER_AUTO 0 simTable (by decide) (by decide) (Or.inl (by decide))
  ⟨⟨h1.1, h1.2.1⟩, ⟨h2.1, h2.2.1⟩, ⟨h3.1, h3.2.1⟩⟩

/-- C5: `getSetting` with `reg_type = REGISTER_AUTO`, on a valid id and a
register found in the table.  When the descriptor has a ROM and a RAM address
(both `>= 0`), or a RAM address only, the one transaction issued is a read at
the RAM address in the RAM bank; when it has a ROM address only, it is a read
at the ROM address in the ROM bank.  The read is a byte read for a register of
size 1, a word read for size 2; for any other size nothing is read. -/
theorem getSetting_auto_bank (E : Env σ Table) (api : HerkuleXSimpleAPI σ Table)
    (id reg_name device : Int) (cctt : Table) (infos : RegisterInfos)
    (hdist : E.REGISTER_ROM ≠ E.REGISTER_RAM)
    (hid : api.checkId id false = true)
    (htable : settingTable E api device = some cctt)
    (hfound : E.getRegisterInfos cctt reg_name = some infos) :
    ((infos.reg_addr_rom ≥ 0 ∧ infos.reg_addr_ram ≥ 0) ∨
      (infos.reg_addr_rom < 0 ∧ infos.reg_addr_ram ≥ 0) →
      (infos.reg_size = 1 →
        (getSetting E api id reg_name E.REGISTER_AUTO device).2.calls =
          api.calls ++ [BusCall.read_byte id infos.reg_addr_ram E.REGISTER_RAM]) ∧
      (infos.reg_size = 2 →
        (getSetting E api id reg_name E.REGISTER_AUTO device).2.calls =
          api.calls ++ [BusCall.read_word id infos.reg_addr_ram E.REGISTER_RAM]) ∧
      (infos.reg_size ≠ 1 → infos.reg_size ≠ 2 →
        (getSetting E api id reg_name E.REGISTER_AUTO device).2.calls = api.calls)) ∧
    ((infos.reg_addr_rom ≥ 0 ∧ infos.reg_addr_ram < 0) →
      (infos.reg_size = 1 →
        (getSetting E api id reg_name E.REGISTER_AUTO device).2.calls =
          api.calls ++ [BusCall.read_byte id infos.reg_addr_rom E.REGISTER_ROM]) ∧
      (infos.reg_size = 2 →
        (getSetting E api id reg_name E.REGISTER_AUTO device).2.calls =
          api.calls ++ [BusCall.read_word id infos.reg_addr_rom E.REGISTER_ROM]) ∧
      (infos.reg_size ≠ 1 → infos.reg_size ≠ 2 →
        (getSetting E api id reg_name E.REGISTER_AUTO device).2.calls = api.calls)) := by
  have hdist' : E.REGISTER_RAM ≠ E.REGISTER_ROM := fun h => hdist h.symm
  constructor
  · intro hbank
    have hty : getSettingType E infos E.REGISTER_AUTO = E.REGISTER_RAM := by
      unfold getSettingType
      rcases hbank with ⟨h1, h2⟩ | ⟨h1, h2⟩
      · simp [h1, h2]
      · have h3 : ¬ (infos.reg_addr_rom ≥ 0) := by omega
        simp [h3, h2]
    refine ⟨?_, ?_, ?_⟩
    · intro hs
      simp only [getSetting, hid, htable, hfound, hty, getSettingRead, hdist', hs, if_true,
        if_false, hkx_read_byte]
      split_ifs <;> simp
    · intro hs
      have h21 : ¬ ((2 : Int) = 1) := by decide
      simp only [getSetting, hid, htable, hfound, hty, getSettingRead, hdist', hs, if_true,
        if_false, hkx_read_word, h21]
      split_ifs <;> simp
    · intro hs1 hs2
      simp only [getSetting, hid, htable, hfound, hty, getSettingRead, hdist', hs1, hs2,
        if_true, if_false]
      split_ifs <;> simp
  · intro hbank
    have hty : getSettingType E infos E.REGISTER_AUTO = E.REGISTER_ROM := by
      unfold getSettingType
      have h3 : ¬ (infos.reg_addr_ram ≥ 0) := by omega
      simp [hbank.1, h3]
    refine ⟨?_, ?_, ?_⟩
    · intro hs
      simp only [getSetting, hid, htable, hfound, hty, getSettingRead, hs, if_true,
        hkx_read_byte]
      split_ifs <;> simp
    · intro hs
      have h21 : ¬ ((2 : Int) = 1) := by decide
      simp only [getSetting, hid, htable, hfound, hty, getSettingRead, hs, if_true,
        if_false, hkx_read_word, h21]
      split_ifs <;> simp
    · intro hs1 hs2
      simp only [getSetting, hid, htable, hfound, hty, getSettingRead, hs1, hs2,
        if_true, if_false]
      split_ifs <;> simp

/-- Instances of `getSetting_auto_bank` on the simulated bus, for servo 5: the
min position (word, ROM 26 and RAM 20) is read in RAM at 20, the led (byte, RAM
53 only) in RAM at 53, the model number (word, ROM 0 only) in ROM at 0. -/
theorem getSetting_auto_bank_witness :
    (getSetting (simEnv [5]) simApi 5 4 (simEnv [5]).REGISTER_AUTO 0).2.calls =
      [BusCall.read_word 5 20 (simEnv [5]).REGISTER_RAM] ∧
    (getSetting (simEnv [5]) simApi 5 7 (simEnv [5]).REGISTER_AUTO 0).2.calls =
      [BusCall.read_byte 5 53 (simEnv [5]).REGISTER_RAM] ∧
    (getSetting (simEnv [5]) simApi 5 0 (simEnv [5]).REGISTER_AUTO 0).2.calls =
      [BusCall.read_word 5 0 (simEnv [5]).REGISTER_ROM] :=
  have h1 := getSetting_auto_bank (simEnv [5]) simApi 5 4 0 simTable ⟨2, 1, 26, 20, 0, 1023⟩
    (by decide) (by decide) (by decide) (by decide)
  have h2 := getSetting_auto_bank (simEnv [5]) simApi 5 7 0 simTable ⟨1, 1, -1, 53, 0, 7⟩
    (by decide) (by decide) (by decide) (by decide)
  have h3 := getSetting_auto_bank (simEnv [5]) simApi 5 0 0 simTable ⟨2, 0, 0, -1, -1, -1⟩
    (by decide) (by decide) (by decide) (by decide)
  ⟨(h1.1 (Or.inl (by decide))).2.1 (by decide),
   (h2.1 (Or.inr (by decide))).1 (by decide),
   (h3.2 (by decide)).2.1 (by decide)⟩

/-- C6: `setSetting` with `REGISTER_AUTO` on a valid id, for a writable
register with a ROM and a RAM address (both `>= 0`), of size 1 or 2, and a value
within its bounds.  Exactly two write transactions are issued, the first at the
ROM address in the ROM bank, the second at the RAM address in the RAM bank
(byte writes for size 1, word writes for size 2).  The result is 1 exactly when
`hkx_print_error()` is 0 after the first write or after the second one, and 0
exactly when it is non-zero after both. -/
theorem setSetting_auto_dual_bank (E : Env σ Table) (api : HerkuleXSimpleAPI σ Table)
    (id reg_name reg_value device : Int) (cctt : Table) (infos : RegisterInfos)
    (hid : api.checkId id E.checkId_broadcast = true)
    (htable : settingTable E api device = some cctt)
    (hfound : E.getRegisterInfos cctt reg_name = some infos)
    (haccess : infos.reg_access_mode = E.READ_WRITE)
    (hmin : infos.reg_value_min ≤ reg_value) (hmax : reg_value ≤ infos.reg_value_max)
    (hrom : infos.reg_addr_rom ≥ 0) (hram : infos.reg_addr_ram ≥ 0) :
    (infos.reg_size = 1 →
      (setSetting E api id reg_name reg_value E.REGISTER_AUTO device).2.calls =
        api.calls ++ [BusCall.write_byte id infos.reg_addr_rom reg_value E.REGISTER_ROM,
                      BusCall.write_byte id infos.reg_addr_ram reg_value E.REGISTER_RAM] ∧
      ((setSetting E api id reg_name reg_value E.REGISTER_AUTO device).1 = 1 ↔
        E.hkx_print_error
          (E.hkx_write_byte api.bus id infos.reg_addr_rom reg_value E.REGISTER_ROM) = 0 ∨
        E.hkx_print_error
          (E.hkx_write_byte
            (E.hkx_write_byte api.bus id infos.reg_addr_rom reg_value E.REGISTER_ROM)
            id infos.reg_addr_ram reg_value E.REGISTER_RAM) = 0) ∧
      ((setSetting E api id reg_name reg_value E.REGISTER_AUTO device).1 = 0 ↔
        E.hkx_print_error
          (E.hkx_write_byte api.bus id infos.reg_addr_rom reg_value E.REGISTER_ROM) ≠ 0 ∧
        E.hkx_print_error
          (E.hkx_write_byte
            (E.hkx_write_byte api.bus id infos.reg_addr_rom reg_value E.REGISTER_ROM)
            id infos.reg_addr_ram reg_value E.REGISTER_RAM) ≠ 0)) ∧
    (infos.reg_size = 2 →
      (setSetting E api id reg_name reg_value E.REGISTER_AUTO device).2.calls =
        api.calls ++ [BusCall.write_word id infos.reg_addr_rom reg_value E.REGISTER_ROM,
                      BusCall.write_word id infos.reg_addr_ram reg_value E.REGISTER_RAM] ∧
      ((setSetting E api id reg_name reg_value E.REGISTER_AUTO device).1 = 1 ↔
        E.hkx_print_error
          (E.hkx_write_word api.bus id infos.reg_addr_rom reg_value E.REGISTER_ROM) = 0 ∨
        E.hkx_print_error
          (E.hkx_write_word
            (E.hkx_write_word api.bus id infos.reg_addr_rom reg_value E.REGISTER_ROM)
            id infos.reg_addr_ram reg_value E.REGISTER_RAM) = 0) ∧
      ((setSetting E api id reg_name reg_value E.REGISTER_AUTO device).1 = 0 ↔
        E.hkx_print_error
          (E.hkx_write_word api.bus id infos.reg_addr_rom reg_value E.REGISTER_ROM) ≠ 0 ∧
        E.hkx_print_error
          (E.hkx_write_word
            (E.hkx_write_word api.bus id infos.reg_addr_rom reg_value E.REGISTER_ROM)
            id infos.reg_addr_ram reg_value E.REGISTER_RAM) ≠ 0)) := by
  have hty : setSettingType E infos E.REGISTER_AUTO = E.REGISTER_BOTH := by
    unfold setSettingType
    simp [hrom, hram]
  have hin : reg_value ≥ infos.reg_value_min ∧ reg_value ≤ infos.reg_value_max := ⟨hmin, hmax⟩
  constructor
  · intro hs
    simp only [setSetting, hid, htable, hfound, haccess, hin, hty, setSettingValues,
      setSettingWrite, hs, hkx_write_byte, hkx_print_error, if_true, and_self, or_true]
    split_ifs with h1 h2 h2 <;> simp [h1, h2]
  · intro hs
    have h21 : ¬ ((2 : Int) = 1) := by decide
    simp only [setSetting, hid, htable, hfound, haccess, hin, hty, setSettingValues,
      setSettingWrite, hs, hkx_write_word, hkx_print_error, if_true, and_self, or_true, h21,
      if_false]
    split_ifs with h1 h2 h2 <;> simp [h1, h2]

/-- Instances of `setSetting_auto_dual_bank` on the simulated bus: the min
position of servo 5 (word, ROM 26 and RAM 20) set to 1000 is written in ROM
then in RAM; the result is 1 when both writes succeed, 1 when the ROM write
alone fails, 1 when the RAM write alone fails, 0 when both fail. -/
theorem setSetting_auto_dual_bank_witness :
    (setSetting (simEnv [5]) simApi 5 4 1000 (simEnv [5]).REGISTER_AUTO 0).2.calls =
      [BusCall.write_word 5 26 1000 (simEnv [5]).REGISTER_ROM,
       BusCall.write_word 5 20 1000 (simEnv [5]).REGISTER_RAM] ∧
    (setSetting (simEnv [5]) simApi 5 4 1000 (simEnv [5]).REGISTER_AUTO 0).1 = 1 ∧
    (setSetting (faultyEnv [5] [1]) simApi 5 4 1000 0 0).1 = 1 ∧
    (setSetting (faultyEnv [5] [2]) simApi 5 4 1000 0 0).1 = 1 ∧
    (setSetting (faultyEnv [5] [1, 2]) simApi 5 4 1000 0 0).1 = 0 :=
  have h := (setSetting_auto_dual_bank (simEnv [5]) simApi 5 4 1000 0 simTable
    ⟨2, 1, 26, 20, 0, 1023⟩ (by decide) (by decide) (by decide) (by decide) (by decide)
    (by decide) (by decide) (by decide)).2 (by decide)
  have hrom := (setSetting_auto_dual_bank (faultyEnv [5] [1]) simApi 5 4 1000 0 simTable
    ⟨2, 1, 26, 20, 0, 1023⟩ (by decide) (by decide) (by decide) (by decide) (by decide)
    (by decide) (by decide) (by decide)).2 (by decide)
  have hram := (setSetting_auto_dual_bank (faultyEnv [5] [2]) simApi 5 4 1000 0 simTable
    ⟨2, 1, 26, 20, 0, 1023⟩ (by decide) (by decide) (by decide) (by decide) (by decide)
    (by decide) (by decide) (by decide)).2 (by decide)
  have hboth := (setSetting_auto_dual_bank (faultyEnv [5] [1, 2]) simApi 5 4 1000 0 simTable
    ⟨2, 1, 26, 20, 0, 1023⟩ (by decide) (by decide) (by decide) (by decide) (by decide)
    (by decide) (by decide) (by decide)).2 (by decide)
  ⟨h.1, h.2.1.2 (Or.inl (by decide)), hrom.2.1.2 (Or.inr (by decide)),
   hram.2.1.2 (Or.inl (by decide)), hboth.2.2.2 ⟨by decide, by decide⟩⟩

/-- C7: on a device whose banks store what is written (a read of a cell just
written returns the value written) and whose transactions always succeed
(`hkx_print_error()` is 0 after every read and write), for an id in `[0, maxId]`, a writable
register of size 1 or 2 found in the table, a value within its bounds and the
bank `REGISTER_ROM` or `REGISTER_RAM`: `setSetting` returns 1, and `getSetting`
of the same register in the same bank, run next, returns the value. -/
theorem setSetting_getSetting_roundtrip (E : Env σ Table) (api : HerkuleXSimpleAPI σ Table)
    (id reg_name reg_value bank device : Int) (cctt : Table) (infos : RegisterInfos)
    (hbyte : ∀ s i addr v b, (E.hkx_read_byte (E.hkx_write_byte s i addr v b) i addr b).1 = v)
    (hword : ∀ s i addr v b, (E.hkx_read_word (E.hkx_write_word s i addr v b) i addr b).1 = v)
    (hokb : ∀ s i addr v b, E.hkx_print_error (E.hkx_write_byte s i addr v b) = 0)
    (hokw : ∀ s i addr v b, E.hkx_print_error (E.hkx_write_word s i addr v b) = 0)
    (hokrb : ∀ s i addr b, E.hkx_print_error (E.hkx_read_byte s i addr b).2 = 0)
    (hokrw : ∀ s i addr b, E.hkx_print_error (E.hkx_read_word s i addr b).2 = 0)
    (hdist : E.registerTypesDistinct)
    (hid0 : 0 ≤ id) (hid1 : id ≤ api.maxId)
    (htable : settingTable E api device = some cctt)
    (hfound : E.getRegisterInfos cctt reg_name = some infos)
    (haccess : infos.reg_access_mode = E.READ_WRITE)
    (hsize : infos.reg_size = 1 ∨ infos.reg_size = 2)
    (hmin : infos.reg_value_min ≤ reg_value) (hmax : reg_value ≤ infos.reg_value_max)
    (hbank : bank = E.REGISTER_ROM ∨ bank = E.REGISTER_RAM) :
    (setSetting E api id reg_name reg_value bank device).1 = 1 ∧
    (getSetting E (setSetting E api id reg_name reg_value bank device).2
      id reg_name bank device).1 = reg_value := by
  obtain ⟨hAR, hAM, _, hRM, hRB, hMB⟩ := hdist
  have hidc : ∀ b, api.checkId id b = true := by
    intro b
    simp [checkId, hid0, hid1]
  have hin : reg_value ≥ infos.reg_value_min ∧ reg_value ≤ infos.reg_value_max := ⟨hmin, hmax⟩
  have hnot : ¬ (reg_value < infos.reg_value_min ∧ reg_value > infos.reg_value_max) := by omega
  have h21 : ¬ ((2 : Int) = 1) := by decide
  have htable' : ∀ (a : HerkuleXSimpleAPI σ Table), a.ct = api.ct →
      settingTable E a device = some cctt := by
    intro a ha
    rw [← htable]
    simp [settingTable, ha]
  rcases hbank with hb | hb <;> rcases hsize with hs | hs
  · subst hb
    have hty : setSettingType E infos E.REGISTER_ROM = E.REGISTER_ROM := by
      simp [setSettingType, Ne.symm hAR]
    have hgty : getSettingType E infos E.REGISTER_ROM = E.REGISTER_ROM := by
      simp [getSettingType, Ne.symm hAR]
    simp [setSetting, getSetting, hidc, htable, hfound, haccess, hin, hty, hgty,
      setSettingValues, setSettingWrite, getSettingRead, hs, hkx_write_byte, hkx_read_byte,
      hkx_print_error, hokb, hokrb, hRM, hRB, checkId, hid0, hid1, htable', hbyte, hnot]
  · subst hb
    have hty : setSettingType E infos E.REGISTER_ROM = E.REGISTER_ROM := by
      simp [setSettingType, Ne.symm hAR]
    have hgty : getSettingType E infos E.REGISTER_ROM = E.REGISTER_ROM := by
      simp [getSettingType, Ne.symm hAR]
    simp [setSetting, getSetting, hidc, htable, hfound, haccess, hin, hty, hgty,
      setSettingValues, setSettingWrite, getSettingRead, hs, hkx_write_word, hkx_read_word,
      hkx_print_error, hokw, hokrw, hRM, hRB, checkId, hid0, hid1, htable', hword, hnot]
  · subst hb
    have hty : setSettingType E infos E.REGISTER_RAM = E.REGISTER_RAM := by
      simp [setSettingType, Ne.symm hAM]
    have hgty : getSettingType E infos E.REGISTER_RAM = E.REGISTER_RAM := by
      simp [getSettingType, Ne.symm hAM]
    simp [setSetting, getSetting, hidc, htable, hfound, haccess, hin, hty, hgty,
      setSettingValues, setSettingWrite, getSettingRead, hs, hkx_write_byte, hkx_read_byte,
      hkx_print_error, hokb, hokrb, Ne.symm hRM, hMB, checkId, hid0, hid1, htable', hbyte, hnot]
  · subst hb
    have hty : setSettingType E infos E.REGISTER_RAM = E.REGISTER_RAM := by
      simp [setSettingType, Ne.symm hAM]
    have hgty : getSettingType E infos E.REGISTER_RAM = E.REGISTER_RAM := by
      simp [getSettingType, Ne.symm hAM]
    simp [setSetting, getSetting, hidc, htable, hfound, haccess, hin, hty, hgty,
      setSettingValues, setSettingWrite, getSettingRead, hs, hkx_write_word, hkx_read_word,
      hkx_print_error, hokw, hokrw, Ne.symm hRM, hMB, checkId, hid0, hid1, htable', hword, hnot]

/-- The simulated bus stores what is written: byte cells. -/
theorem simEnv_read_byte_after_write (r : List Int) (s : SimState) (i addr v b : Int) :
    ((simEnv r).hkx_read_byte ((simEnv r).hkx_write_byte s i addr v b) i addr b).1 = v := by
  simp [simEnv, faultyEnv, simBus, SimState.load, SimState.store]

/-- The simulated bus stores what is written: word cells. -/
theorem simEnv_read_word_after_write (r : List Int) (s : SimState) (i addr v b : Int) :
    ((simEnv r).hkx_read_word ((simEnv r).hkx_write_word s i addr v b) i addr b).1 = v := by
  simp [simEnv, faultyEnv, simBus, SimState.load, SimState.store]

/-- Instance of `setSetting_getSetting_roundtrip` on the simulated bus: the min
position of servo 5 set to 1000 in RAM, then read back from RAM. -/
theorem setSetting_getSetting_roundtrip_witness :
    (setSetting (simEnv [5]) simApi 5 4 1000 (simEnv [5]).REGISTER_RAM 0).1 = 1 ∧
    (getSetting (simEnv [5]) (setSetting (simEnv [5]) simApi 5 4 1000 (simEnv [5]).REGISTER_RAM 0).2
      5 4 (simEnv [5]).REGISTER_RAM 0).1 = 1000 :=
  setSetting_getSetting_roundtrip (simEnv [5]) simApi 5 4 1000 (simEnv [5]).REGISTER_RAM 0 simTable
    ⟨2, 1, 26, 20, 0, 1023⟩ (simEnv_read_byte_after_write [5]) (simEnv_read_word_after_write [5])
    (fun _ _ _ _ _ => rfl) (fun _ _ _ _ _ => rfl) (fun _ _ _ _ => rfl) (fun _ _ _ _ => rfl)
    (by decide) (by decide) (by decide) (by decide) (by decide) (by decide)
    (by decide) (by decide) (by decide) (Or.inr rfl)

/-! ### Scan -/

/-- The range from `id` starts with `id` when `id <= stop`. -/
theorem idRange_cons (id stop : Int) (h : id ≤ stop) :
    idRange id stop = id :: idRange (id + 1) stop := by
  unfold idRange
  have hn : (stop + 1 - id).toNat = (stop + 1 - (id + 1)).toNat + 1 := by omega
  rw [hn, List.range_succ_eq_map, List.map_cons, List.map_map]
  have h0 : id + ((0 : Nat) : Int) = id := by simp
  rw [h0]
  congr 1
  apply List.map_congr_left
  intro k _
  simp only [Function.comp_apply, Nat.succ_eq_add_one, Nat.cast_add, Nat.cast_one]
  ring

/-- The range is empty when `stop < id`. -/
theorem idRange_nil (id stop : Int) (h : ¬ id ≤ stop) : idRange id stop = [] := by
  unfold idRange
  have hn : (stop + 1 - id).toNat = 0 := by omega
  rw [hn]
  rfl

/-- The range holds exactly the ids between its bounds. -/
theorem mem_idRange (start stop i : Int) : i ∈ idRange start stop ↔ start ≤ i ∧ i ≤ stop := by
  unfold idRange
  simp only [List.mem_map, List.mem_range]
  constructor
  · rintro ⟨k, hk, rfl⟩
    omega
  · intro h
    exact ⟨(i - start).toNat, by omega, by omega⟩

/-- The range is strictly ascending, so holds each id once. -/
theorem idRange_pairwise (start stop : Int) : (idRange start stop).Pairwise (· < ·) := by
  unfold idRange
  rw [List.pairwise_map]
  have h := List.pairwise_lt_range (stop + 1 - start).toNat
  exact h.imp (fun hab => by omega)

/-- Pings of a record extended by one call. -/
theorem pingIds_append (l₁ l₂ : List BusCall) : pingIds (l₁ ++ l₂) = pingIds l₁ ++ pingIds l₂ := by
  simp [pingIds, List.filterMap_append]

/-- A byte write is no ping. -/
theorem pingIds_snoc_write_byte (l : List BusCall) (a b c d : Int) :
    pingIds (l ++ [BusCall.write_byte a b c d]) = pingIds l := by
  simp [pingIds, BusCall.pingId]

/-- A byte read is no ping. -/
theorem pingIds_snoc_read_byte (l : List BusCall) (a b c : Int) :
    pingIds (l ++ [BusCall.read_byte a b c]) = pingIds l := by
  simp [pingIds, BusCall.pingId]

/-- A word read is no ping. -/
theorem pingIds_snoc_read_word (l : List BusCall) (a b c : Int) :
    pingIds (l ++ [BusCall.read_word a b c]) = pingIds l := by
  simp [pingIds, BusCall.pingId]

/-- `setLed` pings nothing. -/
theorem setLed_pingIds (E : Env σ Table) (api : HerkuleXSimpleAPI σ Table) (id led color : Int) :
    pingIds (setLed E api id led color).2.calls = pingIds api.calls := by
  simp only [setLed, hkx_write_byte]
  split_ifs <;> simp only [pingIds_snoc_write_byte]

/-- `readCurrentPosition` pings nothing. -/
theorem readCurrentPosition_pingIds (E : Env σ Table) (api : HerkuleXSimpleAPI σ Table)
    (id : Int) : pingIds (readCurrentPosition E api id).2.calls = pingIds api.calls := by
  simp only [readCurrentPosition, hkx_read_byte]
  split_ifs <;> simp only [pingIds_snoc_read_byte]

/-- `getTorqueEnabled` pings nothing. -/
theorem getTorqueEnabled_pingIds (E : Env σ Table) (api : HerkuleXSimpleAPI σ Table)
    (id : Int) : pingIds (getTorqueEnabled E api id).2.calls = pingIds api.calls := by
  simp only [getTorqueEnabled, hkx_read_byte]
  split_ifs <;> simp only [pingIds_snoc_read_byte]

/-- `getSetting` pings nothing. -/
theorem getSetting_pingIds (E : Env σ Table) (api : HerkuleXSimpleAPI σ Table)
    (id reg_name reg_type device : Int) :
    pingIds (getSetting E api id reg_name reg_type device).2.calls = pingIds api.calls := by
  simp only [getSetting, getSettingRead, hkx_read_byte, hkx_read_word]
  split_ifs
  · split
    · split
      · split_ifs <;> simp only [pingIds_snoc_read_byte, pingIds_snoc_read_word]
      · rfl
    · rfl
  · rfl

/-- What the scan does for a servo it found pings nothing. -/
theorem scanFound_pingIds (E : Env σ Table) (api : HerkuleXSimpleAPI σ Table) (id : Int) :
    pingIds (scanFound E api id).calls = pingIds api.calls := by
  simp only [scanFound]
  split_ifs
  · rw [setLed_pingIds, getSetting_pingIds]
    simp only [readCurrentLoad, readCurrentSpeed, ite_self]
    rw [getTorqueEnabled_pingIds, readCurrentPosition_pingIds, setLed_pingIds]
  · rw [setLed_pingIds, setLed_pingIds]

/-- The loop of the scan, when the answer to a ping depends on the id only:
from `id` it terminates, adds to `ids` the ids of `[id, stop]` that answer, in
ascending order, and pings the ids of `[id, stop]` in ascending order. -/
theorem scanLoop_spec (E : Env σ Table) (oracle : Int → Bool)
    (hping : ∀ s i, (E.hkx_ping s i).1 = oracle i) (stop : Int) :
    ∀ (n : Nat) (id : Int) (ids : List Int) (api : HerkuleXSimpleAPI σ Table),
      (stop + 1 - id).toNat = n →
      (scanLoop E stop id ids api).1 = ids ++ (idRange id stop).filter oracle ∧
      pingIds (scanLoop E stop id ids api).2.calls = pingIds api.calls ++ idRange id stop := by
  intro n
  induction n with
  | zero =>
    intro id ids api hn
    have hle : ¬ id ≤ stop := by omega
    rw [scanLoop, if_neg hle, idRange_nil id stop hle]
    simp
  | succ n ih =>
    intro id ids api hn
    have hle : id ≤ stop := by omega
    have hn' : (stop + 1 - (id + 1)).toNat = n := by omega
    rw [scanLoop, if_pos hle, idRange_cons id stop hle]
    simp only [hkx_ping, hping]
    cases ho : oracle id
    · simp only [Bool.false_eq_true, if_false]
      obtain ⟨h1, h2⟩ := ih (id + 1) ids
        { api with bus := (E.hkx_ping api.bus id).2.2, calls := api.calls ++ [BusCall.ping id] } hn'
      rw [h1, h2]
      simp [ho, pingIds, BusCall.pingId]
    · simp only [if_true]
      obtain ⟨h1, h2⟩ := ih (id + 1) (ids ++ [id])
        (scanFound E { api with bus := (E.hkx_ping api.bus id).2.2,
                                calls := api.calls ++ [BusCall.ping id] } id) hn'
      rw [h1, h2, scanFound_pingIds]
      simp [ho, pingIds, BusCall.pingId]

/-- The scan for arbitrary arguments, when the answer to a ping depends on the
id only: the range probed is the one left by the boundary check. -/
theorem servoScan_spec (E : Env σ Table) (oracle : Int → Bool)
    (hping : ∀ s i, (E.hkx_ping s i).1 = oracle i) (api : HerkuleXSimpleAPI σ Table)
    (start stop : Int) :
    (servoScan E api start stop).1 =
      (idRange (scanStart api start) (scanStop api (scanStart api start) stop)).filter oracle ∧
    pingIds (servoScan E api start stop).2.calls =
      pingIds api.calls ++
        idRange (scanStart api start) (scanStop api (scanStart api start) stop) := by
  have h := scanLoop_spec E oracle hping (scanStop api (scanStart api start) stop) _
    (scanStart api start) [] api rfl
  simpa [servoScan] using h

/-- The servos `r` are the ones that answer on the simulated bus. -/
theorem simEnv_ping (r : List Int) (s : SimState) (i : Int) :
    ((simEnv r).hkx_ping s i).1 = decide (i ∈ r) := rfl

/-- C8 (as amended): for `0 <= start <= stop <= maxId` with `start <= maxId - 1`
and `stop >= 1`, and every ping oracle, `servoScan(start, stop)` pings exactly
the ids `start, ..., stop`, each once and in ascending order, and returns
exactly the ids of `[start, stop]` whose ping succeeded, in ascending order. -/
theorem servoScan_in_range (E : Env σ Table) (oracle : Int → Bool)
    (hping : ∀ s i, (E.hkx_ping s i).1 = oracle i) (api : HerkuleXSimpleAPI σ Table)
    (start stop : Int)
    (h0 : 0 ≤ start) (hle : start ≤ stop) (hmax : stop ≤ api.maxId)
    (hstart : start ≤ api.maxId - 1) (hstop : 1 ≤ stop) :
    (servoScan E api start stop).1 = (idRange start stop).filter oracle ∧
    pingIds (servoScan E api start stop).2.calls = pingIds api.calls ++ idRange start stop ∧
    (∀ i, i ∈ idRange start stop ↔ start ≤ i ∧ i ≤ stop) ∧
    (idRange start stop).Pairwise (· < ·) ∧
    (∀ i, i ∈ (servoScan E api start stop).1 ↔ (start ≤ i ∧ i ≤ stop) ∧ oracle i = true) ∧
    ((servoScan E api start stop).1).Pairwise (· < ·) := by
  have hs : scanStart api start = start := by
    unfold scanStart
    rw [if_neg (by omega)]
  have ht : scanStop api start stop = stop := by
    unfold scanStop
    rw [if_neg (by omega)]
  have h := servoScan_spec E oracle hping api start stop
  rw [hs, ht] at h
  refine ⟨h.1, h.2, mem_idRange start stop, idRange_pairwise start stop, ?_, ?_⟩
  · intro i
    rw [h.1, List.mem_filter, mem_idRange]
  · rw [h.1]
    exact (idRange_pairwise start stop).sublist (List.filter_sublist _)

/-- Instance of `servoScan_in_range`: the scan of `[1, 10]` on the simulated
bus where servo 5 alone answers finds `[5]` and pings 1 to 10 in order. -/
theorem servoScan_in_range_witness :
    (servoScan (simEnv [5]) simApi 1 10).1 = [5] ∧
    pingIds (servoScan (simEnv [5]) simApi 1 10).2.calls = [1, 2, 3, 4, 5, 6, 7, 8, 9, 10] :=
  have h := servoScan_in_range (simEnv [5]) (fun i => decide (i ∈ ([5] : List Int)))
    (simEnv_ping [5]) simApi 1 10 (by decide) (by decide) (by decide) (by decide) (by decide)
  ⟨h.1.trans (by decide), h.2.1.trans (by decide)⟩

/-- C8 (counterexample to the claim as stated): `start = stop = 0` satisfies
`0 <= start <= stop <= maxId`, with `maxId = 253`; on the simulated bus where
servo 5 alone answers, no id of `[0, 0]` answers, yet `servoScan(0, 0)` returns
`[5]` and pings every id from 0 to 253. -/
theorem servoScan_zero_zero_scans_all :
    (0 : Int) ≤ 0 ∧ (0 : Int) ≤ simApi.maxId ∧
    (idRange 0 0).filter (fun i => decide (i ∈ ([5] : List Int))) = [] ∧
    (servoScan (simEnv [5]) simApi 0 0).1 = [5] ∧
    pingIds (servoScan (simEnv [5]) simApi 0 0).2.calls = idRange 0 253 ∧
    pingIds (servoScan (simEnv [5]) simApi 0 0).2.calls ≠ idRange 0 0 := by
  have h := servoScan_spec (simEnv [5]) (fun i => decide (i ∈ ([5] : List Int)))
    (simEnv_ping [5]) simApi 0 0
  have hs : scanStart simApi 0 = 0 := by decide
  have ht : scanStop simApi 0 0 = 253 := by decide
  rw [hs, ht] at h
  have hp : pingIds (servoScan (simEnv [5]) simApi 0 0).2.calls = idRange 0 253 := by
    rw [h.2]
    rfl
  refine ⟨by decide, by decide, by decide, h.1.trans (by decide), hp, ?_⟩
  rw [hp]
  intro heq
  have h5 : (5 : Int) ∈ idRange 0 253 := (mem_idRange 0 253 5).2 (by decide)
  rw [heq, mem_idRange] at h5
  exact absurd h5.2 (by decide)

/-! ### Construction -/

/-- C9 (as amended): after construction with a known serie, `maxId` is 253 for
every HerkuleX serie (`servoSerie >= SERVO_HERKULEX`), whatever the adapter;
for a Dynamixel serie of protocol 2 (`servoSerie >= SERVO_PRO` or
`servoSerie >= SERVO_XL`) it is 252, whatever the adapter; for the other
Dynamixel series it is 252 when `serialDevice == SERIAL_USB2AX` and 253 when
not. -/
theorem ctor_maxId (E : Env σ Table) (pre : HerkuleXSimpleAPI σ Table) (servoSerie : Int)
    (hknown : servoSerie ≠ E.SERVO_UNKNOWN) :
    (servoSerie ≥ E.SERVO_HERKULEX → (ctor E pre servoSerie).maxId = 253) ∧
    (servoSerie < E.SERVO_HERKULEX → servoSerie ≥ E.SERVO_PRO ∨ servoSerie ≥ E.SERVO_XL →
      (ctor E pre servoSerie).maxId = 252) ∧
    (servoSerie < E.SERVO_HERKULEX → servoSerie < E.SERVO_PRO → servoSerie < E.SERVO_XL →
      (pre.serialDevice = E.SERIAL_USB2AX → (ctor E pre servoSerie).maxId = 252) ∧
      (pre.serialDevice ≠ E.SERIAL_USB2AX → (ctor E pre servoSerie).maxId = 253)) := by
  refine ⟨?_, ?_, ?_⟩
  · intro hh
    simp only [ctor, hknown, hh, ne_eq, not_false_eq_true, if_true]
    split_ifs <;> rfl
  · intro hh hv2
    have hh' : ¬ servoSerie ≥ E.SERVO_HERKULEX := by omega
    simp only [ctor, hknown, hh', ne_eq, not_false_eq_true, if_true, if_false]
    split_ifs
    · rfl
    · rfl
    · omega
    · omega
  · intro hh hpro hxl
    have hh' : ¬ servoSerie ≥ E.SERVO_HERKULEX := by omega
    have hpro' : ¬ servoSerie ≥ E.SERVO_PRO := by omega
    have hxl' : ¬ servoSerie ≥ E.SERVO_XL := by omega
    constructor
    · intro hdev
      simp [ctor, hknown, hh', hpro', hxl', hdev]
    · intro hdev
      simp [ctor, hknown, hh', hpro', hxl', hdev]

/-- Instances of `ctor_maxId` with the sample constants: a HerkuleX serie gives
253, the Dynamixel PRO and XL series give 252, the MX serie gives 253 since the
serial device of `simPre` is not the USB2AX. -/
theorem ctor_maxId_witness :
    (ctor (simEnv []) simPre (simEnv []).SERVO_DRS_0402).maxId = 253 ∧
    (ctor (simEnv []) simPre (simEnv []).SERVO_PRO).maxId = 252 ∧
    (ctor (simEnv []) simPre (simEnv []).SERVO_XL).maxId = 252 ∧
    (ctor (simEnv []) simPre (simEnv []).SERVO_MX).maxId = 253 :=
  ⟨(ctor_maxId (simEnv []) simPre (simEnv []).SERVO_DRS_0402 (by decide)).1 (by decide),
   (ctor_maxId (simEnv []) simPre (simEnv []).SERVO_PRO (by decide)).2.1 (by decide)
     (Or.inl (by decide)),
   (ctor_maxId (simEnv []) simPre (simEnv []).SERVO_XL (by decide)).2.1 (by decide)
     (Or.inr (by decide)),
   ((ctor_maxId (simEnv []) simPre (simEnv []).SERVO_MX (by decide)).2.2 (by decide)
     (by decide) (by decide)).2 (by decide)⟩

/-- C9 (counterexample to the claim as stated): the serie `SERVO_PRO` is known
and the serial device is not the USB2AX adapter, yet the constructor leaves
`maxId = 252`, not 253. -/
theorem ctor_maxId_PRO_is_252 :
    (simEnv []).SERVO_PRO ≠ (simEnv []).SERVO_UNKNOWN ∧
    simPre.serialDevice ≠ (simEnv []).SERIAL_USB2AX ∧
    (ctor (simEnv []) simPre (simEnv []).SERVO_PRO).maxId = 252 ∧
    (ctor (simEnv []) simPre (simEnv []).SERVO_PRO).maxId ≠ 253 := by
  decide

/-- C10 (the code departs from the claim): the constructor overwrites
`servoSerie` with `SERVO_DRS` before it compares it with the model enumerators,
so for every HerkuleX serie, `SERVO_DRS_0402`, `SERVO_DRS_0602`,
`SERVO_DRS_0401` and `SERVO_DRS_0601` included, the table selected is
`DRS0101_control_table` (the enumerator `SERVO_DRS` being none of these four
models). -/
theorem ctor_table_always_DRS0101 (E : Env σ Table) (pre : HerkuleXSimpleAPI σ Table)
    (servoSerie : Int) (hknown : servoSerie ≠ E.SERVO_UNKNOWN)
    (hhkx : servoSerie ≥ E.SERVO_HERKULEX)
    (hdrs : E.SERVO_DRS ≠ E.SERVO_DRS_0402 ∧ E.SERVO_DRS ≠ E.SERVO_DRS_0602 ∧
      E.SERVO_DRS ≠ E.SERVO_DRS_0401 ∧ E.SERVO_DRS ≠ E.SERVO_DRS_0601) :
    (ctor E pre servoSerie).ct = some E.DRS0101_control_table := by
  obtain ⟨h1, h2, h3, h4⟩ := hdrs
  simp [ctor, hknown, hhkx, h1, h2, h3, h4]

/-- Instance of `ctor_table_always_DRS0101` with the sample constants: the
series `SERVO_DRS_0402` and `SERVO_DRS_0401` get `DRS0101_control_table`, which
differs from `DRS0x02_control_table` and from `DRS0x01_control_table`. -/
theorem ctor_table_always_DRS0101_witness :
    (ctor (simEnv []) simPre (simEnv []).SERVO_DRS_0402).ct =
      some (simEnv []).DRS0101_control_table ∧
    (ctor (simEnv []) simPre (simEnv []).SERVO_DRS_0401).ct =
      some (simEnv []).DRS0101_control_table ∧
    (simEnv []).DRS0101_control_table ≠ (simEnv []).DRS0x02_control_table ∧
    (simEnv []).DRS0101_control_table ≠ (simEnv []).DRS0x01_control_table :=
  ⟨ctor_table_always_DRS0101 (simEnv []) simPre (simEnv []).SERVO_DRS_0402 (by decide)
     (by decide) (by decide),
   ctor_table_always_DRS0101 (simEnv []) simPre (simEnv []).SERVO_DRS_0401 (by decide)
     (by decide) (by decide),
   by decide, by decide⟩

/-! ### Value check of `getSetting` -/

/-- C15 (the code departs from the claim): the "Check value" test of
`getSetting` is `value < reg_value_min && value > reg_value_max`, which no value
satisfies when `reg_value_min <= reg_value_max`.  So for a valid id and a
register found in the table with such bounds, when the read ends without error
`getSetting` returns the value read, whether it lies within the bounds or
not. -/
theorem getSetting_returns_value_unchecked (E : Env σ Table) (api : HerkuleXSimpleAPI σ Table)
    (id reg_name reg_type device : Int) (cctt : Table) (infos : RegisterInfos)
    (hid : api.checkId id false = true)
    (htable : settingTable E api device = some cctt)
    (hfound : E.getRegisterInfos cctt reg_name = some infos)
    (hbounds : infos.reg_value_min ≤ infos.reg_value_max)
    (hok : hkx_print_error E
      (getSettingRead E api id infos (getSettingType E infos reg_type) (-1)).2 = 0) :
    (getSetting E api id reg_name reg_type device).1 =
      (getSettingRead E api id infos (getSettingType E infos reg_type) (-1)).1 := by
  have hnot : ¬ ((getSettingRead E api id infos (getSettingType E infos reg_type) (-1)).1
        < infos.reg_value_min ∧
      (getSettingRead E api id infos (getSettingType E infos reg_type) (-1)).1
        > infos.reg_value_max) := by
    omega
  simp only [getSetting, hid, htable, hfound, hok, if_true, if_neg hnot]

/-- Instance of `getSetting_returns_value_unchecked` on the simulated bus: the
led register of servo 5 has the bounds 0 and 7 and holds 200; the read succeeds
and `getSetting` returns 200, not -1. -/
theorem getSetting_returns_value_unchecked_witness :
    (getSetting (simEnv [5]) simApiLed200 5 7 (simEnv [5]).REGISTER_RAM 0).1 = 200 ∧
    (200 : Int) > 7 :=
  ⟨(getSetting_returns_value_unchecked (simEnv [5]) simApiLed200 5 7 (simEnv [5]).REGISTER_RAM 0
      simTable ⟨1, 1, -1, 53, 0, 7⟩ (by decide) (by decide) (by decide) (by decide)
      (by decide)).trans (by decide),
   by decide⟩

/-! ### Change of id -/

/-- C16: `changeId(old_id, new_id)` returns 0 and leaves the object untouched
(no ping, no write) when `old_id` fails `checkId` with the broadcast id
disallowed, and when `new_id` is outside `[0, maxId]`; when the ping of
`new_id` leaves the communication status `COMM_RXSUCCESS`, it returns 0 and the
ping is the only primitive called (no register write).  With `maxId` below 254,
`old_id = 254` fails the check. -/
theorem changeId_rejections (E : Env σ Table) (api : HerkuleXSimpleAPI σ Table)
    (old_id new_id : Int) :
    (api.checkId old_id false = false → changeId E api old_id new_id = (0, api)) ∧
    (¬ (0 ≤ new_id ∧ new_id ≤ api.maxId) → changeId E api old_id new_id = (0, api)) ∧
    (api.checkId old_id false = true → 0 ≤ new_id ∧ new_id ≤ api.maxId →
      E.hkx_get_com_status (E.hkx_ping api.bus new_id).2.2 = E.COMM_RXSUCCESS →
      (changeId E api old_id new_id).1 = 0 ∧
      (changeId E api old_id new_id).2.calls = api.calls ++ [BusCall.ping new_id] ∧
      (changeId E api old_id new_id).2.calls.filter BusCall.isWrite =
        api.calls.filter BusCall.isWrite) ∧
    (api.maxId < 254 → api.checkId 254 false = false) := by
  refine ⟨?_, ?_, ?_, ?_⟩
  · intro h
    simp [changeId, h]
  · intro h
    have h' : ¬ (new_id ≥ 0 ∧ new_id ≤ api.maxId) := h
    simp only [changeId, if_neg h']
    split_ifs <;> rfl
  · intro hold hnew hcom
    have hnew' : new_id ≥ 0 ∧ new_id ≤ api.maxId := hnew
    simp [changeId, hold, hnew', hkx_ping, hkx_get_com_status, hcom, BusCall.isWrite]
  · intro hmax
    unfold checkId BROADCAST_ID
    have h : ¬ (((254 : Int) ≥ 0 ∧ (254 : Int) ≤ api.maxId) ∨
        ((254 : Int) = 254 ∧ false = true)) := by
      rintro (h | h)
      · omega
      · exact absurd h.2 (by decide)
    rw [if_neg h]

/-- Instances of `changeId_rejections` on the simulated bus with servo 5
present: `changeId(254, 7)` and `changeId(5, 254)` do nothing, `changeId(3, 5)`
and `changeId(5, 5)` ping id 5, find it in use and write nothing. -/
theorem changeId_rejections_witness :
    changeId (simEnv [5]) simApi 254 7 = (0, simApi) ∧
    changeId (simEnv [5]) simApi 5 254 = (0, simApi) ∧
    ((changeId (simEnv [5]) simApi 3 5).1 = 0 ∧
      (changeId (simEnv [5]) simApi 3 5).2.calls = [BusCall.ping 5]) ∧
    ((changeId (simEnv [5]) simApi 5 5).1 = 0 ∧
      (changeId (simEnv [5]) simApi 5 5).2.calls = [BusCall.ping 5]) :=
  have h1 := (changeId_rejections (simEnv [5]) simApi 254 7).1
    ((changeId_rejections (simEnv [5]) simApi 254 7).2.2.2 (by decide))
  have h2 := (changeId_rejections (simEnv [5]) simApi 5 254).2.1 (by decide)
  have h3 := (changeId_rejections (simEnv [5]) simApi 3 5).2.2.1 (by decide) (by decide)
    (by decide)
  have h4 := (changeId_rejections (simEnv [5]) simApi 5 5).2.2.1 (by decide) (by decide)
    (by decide)
  ⟨h1, h2, ⟨h3.1, h3.2.1⟩, ⟨h4.1, h4.2.1⟩⟩

/-! ### Torque -/

/-- C18: `setTorqueEnabled(id, torque)` with a valid id writes the torque
register in RAM exactly when `torque` is 0, 1, 0x40 or 0x60: one byte write at
the RAM address of `REG_TORQUE_ENABLE`, of 0x60 when `torque = 1` and of
`torque` itself otherwise.  For every other value it returns 0 and calls no
primitive. -/
theorem setTorqueEnabled_spec (E : Env σ Table) (api : HerkuleXSimpleAPI σ Table)
    (id torque : Int) (hid : api.checkId id E.checkId_broadcast = true) :
    (torque = 0 ∨ torque = 0x40 ∨ torque = 0x60 →
      (setTorqueEnabled E api id torque).2.calls = api.calls ++
        [BusCall.write_byte id (E.getRegisterAddr api.ct E.REG_TORQUE_ENABLE
          (some E.REGISTER_RAM)) torque E.REGISTER_RAM]) ∧
    (torque = 1 →
      (setTorqueEnabled E api id torque).2.calls = api.calls ++
        [BusCall.write_byte id (E.getRegisterAddr api.ct E.REG_TORQUE_ENABLE
          (some E.REGISTER_RAM)) 0x60 E.REGISTER_RAM]) ∧
    (torque ≠ 0 → torque ≠ 1 → torque ≠ 0x40 → torque ≠ 0x60 →
      setTorqueEnabled E api id torque = (0, api)) ∧
    ((∃ c ∈ (setTorqueEnabled E api id torque).2.calls.drop api.calls.length,
        BusCall.isWrite c = true) ↔
      torque = 0 ∨ torque = 1 ∨ torque = 0x40 ∨ torque = 0x60) := by
  have hA : torque = 0 ∨ torque = 0x40 ∨ torque = 0x60 →
      (setTorqueEnabled E api id torque).2.calls = api.calls ++
        [BusCall.write_byte id (E.getRegisterAddr api.ct E.REG_TORQUE_ENABLE
          (some E.REGISTER_RAM)) torque E.REGISTER_RAM] := by
    intro h
    have h1 : torque ≠ 1 := by omega
    simp only [setTorqueEnabled, hid, if_true, if_neg h1, hkx_write_byte, hkx_print_error]
    rw [if_pos h]
    split_ifs <;> rfl
  have hB : torque = 1 →
      (setTorqueEnabled E api id torque).2.calls = api.calls ++
        [BusCall.write_byte id (E.getRegisterAddr api.ct E.REG_TORQUE_ENABLE
          (some E.REGISTER_RAM)) 0x60 E.REGISTER_RAM] := by
    intro h
    subst h
    simp only [setTorqueEnabled, hid, if_true, hkx_write_byte, hkx_print_error]
    rw [if_pos (by decide)]
    split_ifs <;> rfl
  have hC : torque ≠ 0 → torque ≠ 1 → torque ≠ 0x40 → torque ≠ 0x60 →
      setTorqueEnabled E api id torque = (0, api) := by
    intro h0 h1 h40 h60
    have h : ¬ (torque = 0 ∨ torque = 0x40 ∨ torque = 0x60) := by omega
    simp only [setTorqueEnabled, hid, if_true, if_neg h1]
    rw [if_neg h]
  refine ⟨hA, hB, hC, ?_⟩
  constructor
  · rintro ⟨c, hc, _⟩
    by_contra hne
    have hne' : torque ≠ 0 ∧ torque ≠ 1 ∧ torque ≠ 0x40 ∧ torque ≠ 0x60 := by omega
    rw [hC hne'.1 hne'.2.1 hne'.2.2.1 hne'.2.2.2] at hc
    simp at hc
  · intro h
    by_cases h1 : torque = 1
    · rw [hB h1]
      simp [BusCall.isWrite]
    · have h' : torque = 0 ∨ torque = 0x40 ∨ torque = 0x60 := by omega
      rw [hA h']
      simp [BusCall.isWrite]

/-- Instances of `setTorqueEnabled_spec` on the simulated bus, for servo 5 (no
torque register in `simTable`, so the address is -1): the torque 1 is written
as 0x60 (96), the torque 0x40 (64) as itself, and the torque 2 is refused. -/
theorem setTorqueEnabled_spec_witness :
    (setTorqueEnabled (simEnv [5]) simApi 5 1).2.calls = [BusCall.write_byte 5 (-1) 96 2] ∧
    (setTorqueEnabled (simEnv [5]) simApi 5 64).2.calls = [BusCall.write_byte 5 (-1) 64 2] ∧
    setTorqueEnabled (simEnv [5]) simApi 5 2 = (0, simApi) :=
  have h1 := (setTorqueEnabled_spec (simEnv [5]) simApi 5 1 (by decide)).2.1 rfl
  have h2 := (setTorqueEnabled_spec (simEnv [5]) simApi 5 64 (by decide)).1 (Or.inr (Or.inl rfl))
  have h3 := (setTorqueEnabled_spec (simEnv [5]) simApi 5 2 (by decide)).2.2.1
    (by decide) (by decide) (by decide) (by decide)
  ⟨h1, h2, h3⟩

/-! ### Position and temperature -/

/-- C19: for every id and every bus, `readCurrentPosition(id)` leaves the
object exactly as `readCurrentTemperature(id)` does (same calls, same bus
state).  On an id that passes `checkId` it issues one byte read in RAM at the
address of `REG_CURRENT_TEMPERATURE`; it returns the byte read when
`hkx_print_error()` is 0 afterwards and -1 when it is not; on an id that fails
`checkId` it returns -1 and calls nothing.  When the byte read of the bus
returns a value in `[0, 255]`, so does a successful `readCurrentPosition`. -/
theorem readCurrentPosition_reads_temperature (E : Env σ Table)
    (api : HerkuleXSimpleAPI σ Table) (id : Int) :
    (readCurrentPosition E api id).2 = (readCurrentTemperature E api id).2 ∧
    (api.checkId id false = false → readCurrentPosition E api id = (-1, api)) ∧
    (api.checkId id false = true →
      (readCurrentPosition E api id).2.calls = api.calls ++
        [BusCall.read_byte id (E.getRegisterAddr api.ct E.REG_CURRENT_TEMPERATURE
          (some E.REGISTER_RAM)) E.REGISTER_RAM] ∧
      (hkx_print_error E (readCurrentPosition E api id).2 = 0 →
        (readCurrentPosition E api id).1 =
          (E.hkx_read_byte api.bus id (E.getRegisterAddr api.ct E.REG_CURRENT_TEMPERATURE
            (some E.REGISTER_RAM)) E.REGISTER_RAM).1) ∧
      (hkx_print_error E (readCurrentPosition E api id).2 ≠ 0 →
        (readCurrentPosition E api id).1 = -1) ∧
      ((∀ s i addr b, 0 ≤ (E.hkx_read_byte s i addr b).1 ∧ (E.hkx_read_byte s i addr b).1 ≤ 255) →
        hkx_print_error E (readCurrentPosition E api id).2 = 0 →
        0 ≤ (readCurrentPosition E api id).1 ∧ (readCurrentPosition E api id).1 ≤ 255)) := by
  have hstate : ∀ h : api.checkId id false = true,
      (readCurrentPosition E api id).2 =
        (hkx_read_byte E api id (E.getRegisterAddr api.ct E.REG_CURRENT_TEMPERATURE
          (some E.REGISTER_RAM)) E.REGISTER_RAM).2 := by
    intro h
    simp only [readCurrentPosition, h, if_true]
    split_ifs <;> rfl
  refine ⟨?_, ?_, ?_⟩
  · cases h : api.checkId id false
    · simp [readCurrentPosition, readCurrentTemperature, h]
    · rw [hstate h]
      simp only [readCurrentTemperature, h, if_true]
      split_ifs <;> rfl
  · intro h
    simp [readCurrentPosition, h]
  · intro h
    have hval : hkx_print_error E (readCurrentPosition E api id).2 = 0 →
        (readCurrentPosition E api id).1 =
          (E.hkx_read_byte api.bus id (E.getRegisterAddr api.ct E.REG_CURRENT_TEMPERATURE
            (some E.REGISTER_RAM)) E.REGISTER_RAM).1 := by
      intro hok
      rw [hstate h] at hok
      have hok' : ¬ hkx_print_error E (hkx_read_byte E api id
          (E.getRegisterAddr api.ct E.REG_CURRENT_TEMPERATURE (some E.REGISTER_RAM))
          E.REGISTER_RAM).2 ≠ 0 := fun hne => hne hok
      simp only [readCurrentPosition, h, if_true, if_neg hok']
      rfl
    refine ⟨?_, hval, ?_, ?_⟩
    · rw [hstate h]
      rfl
    · intro hne
      rw [hstate h] at hne
      simp only [readCurrentPosition, h, if_true, if_pos hne]
    · intro hbyte hok
      rw [hval hok]
      exact hbyte _ _ _ _

/-- Instances of `readCurrentPosition_reads_temperature` on the simulated bus:
for servo 5, `readCurrentPosition` reads one byte in RAM at 55, the address of
the temperature register in `simTable`; for the id 300 it returns -1 and calls
nothing. -/
theorem readCurrentPosition_reads_temperature_witness :
    (readCurrentPosition (simEnv [5]) simApi 5).2.calls = [BusCall.read_byte 5 55 2] ∧
    readCurrentPosition (simEnv [5]) simApi 300 = (-1, simApi) :=
  ⟨((readCurrentPosition_reads_temperature (simEnv [5]) simApi 5).2.2 (by decide)).1,
   (readCurrentPosition_reads_temperature (simEnv [5]) simApi 300).2.1 (by decide)⟩

/-! ### Bounds of the scan -/

/-- The pings of the scan loop, for any bus: from `id` the loop pings the ids of
`[id, stop]` in ascending order, whatever the pings answer. -/
theorem scanLoop_pingIds (E : Env σ Table) (stop : Int) :
    ∀ (n : Nat) (id : Int) (ids : List Int) (api : HerkuleXSimpleAPI σ Table),
      (stop + 1 - id).toNat = n →
      pingIds (scanLoop E stop id ids api).2.calls = pingIds api.calls ++ idRange id stop := by
  intro n
  induction n with
  | zero =>
    intro id ids api hn
    have hle : ¬ id ≤ stop := by omega
    rw [scanLoop, if_neg hle, idRange_nil id stop hle]
    simp
  | succ n ih =>
    intro id ids api hn
    have hle : id ≤ stop := by omega
    have hn' : (stop + 1 - (id + 1)).toNat = n := by omega
    rw [scanLoop, if_pos hle, idRange_cons id stop hle]
    simp only [hkx_ping]
    split_ifs
    · rw [ih _ _ _ hn', scanFound_pingIds]
      simp [pingIds, BusCall.pingId]
    · rw [ih _ _ _ hn']
      simp [pingIds, BusCall.pingId]

/-- The pings of `servoScan`, for any bus and any arguments: the ids of the
range left by the boundary check, in ascending order. -/
theorem servoScan_pingIds (E : Env σ Table) (api : HerkuleXSimpleAPI σ Table)
    (start stop : Int) :
    pingIds (servoScan E api start stop).2.calls =
      pingIds api.calls ++
        idRange (scanStart api start) (scanStop api (scanStart api start) stop) := by
  simpa [servoScan] using scanLoop_pingIds E (scanStop api (scanStart api start) stop) _
    (scanStart api start) [] api rfl

/-- Number of ids in a range. -/
theorem idRange_length (start stop : Int) :
    (idRange start stop).length = (stop + 1 - start).toNat := by
  simp [idRange]

/-- C17: for all integers `start` and `stop`, every `maxId` from 1 to 253 (the
constructor sets 252 or 253) and every bus, the bounds `start'` and `stop'`
left by the boundary check of `servoScan` satisfy
`0 <= start' <= stop' <= maxId`, with `start' = start` if
`0 <= start <= maxId - 1` and 0 otherwise, `stop' = stop` if
`1 <= stop <= maxId` and `stop >= start'` and `maxId` otherwise.  The scan
pings exactly the ids of `[start', stop']`, in ascending order: at most
`maxId + 1` pings, none of an id below 0 or above `maxId`, none of the
broadcast id. -/
theorem servoScan_bounds (E : Env σ Table) (api : HerkuleXSimpleAPI σ Table)
    (start stop : Int) (hmax : 1 ≤ api.maxId) (h253 : api.maxId ≤ 253) :
    (0 ≤ scanStart api start ∧
      scanStart api start ≤ scanStop api (scanStart api start) stop ∧
      scanStop api (scanStart api start) stop ≤ api.maxId) ∧
    scanStart api start = (if 0 ≤ start ∧ start ≤ api.maxId - 1 then start else 0) ∧
    scanStop api (scanStart api start) stop =
      (if 1 ≤ stop ∧ stop ≤ api.maxId ∧ stop ≥ scanStart api start then stop
       else api.maxId) ∧
    pingIds (servoScan E api start stop).2.calls =
      pingIds api.calls ++
        idRange (scanStart api start) (scanStop api (scanStart api start) stop) ∧
    ((idRange (scanStart api start) (scanStop api (scanStart api start) stop)).length : Int)
      ≤ api.maxId + 1 ∧
    (∀ i ∈ idRange (scanStart api start) (scanStop api (scanStart api start) stop),
      0 ≤ i ∧ i ≤ api.maxId) ∧
    BROADCAST_ID ∉ idRange (scanStart api start) (scanStop api (scanStart api start) stop) := by
  have hs0 : 0 ≤ scanStart api start ∧ scanStart api start ≤ api.maxId - 1 := by
    unfold scanStart
    split_ifs <;> omega
  have hst : scanStart api start ≤ scanStop api (scanStart api start) stop ∧
      scanStop api (scanStart api start) stop ≤ api.maxId := by
    unfold scanStop
    split_ifs <;> omega
  have hmem : ∀ i ∈ idRange (scanStart api start) (scanStop api (scanStart api start) stop),
      0 ≤ i ∧ i ≤ api.maxId := by
    intro i hi
    rw [mem_idRange] at hi
    omega
  refine ⟨⟨hs0.1, hst.1, hst.2⟩, ?_, ?_, servoScan_pingIds E api start stop, ?_, hmem, ?_⟩
  · unfold scanStart
    split_ifs <;> omega
  · unfold scanStop
    split_ifs <;> omega
  · rw [idRange_length]
    omega
  · intro hb
    have := hmem _ hb
    unfold BROADCAST_ID at this
    omega

/-- Instances of `servoScan_bounds` on the simulated bus.  With `maxId = 253`:
the reversed range `(10, 3)` is scanned as `[10, 253]`, the range `(0, 0)` as
`[0, 253]`, the range `(253, 253)` as `[0, 253]`, and the scan of `(0, 0)` does
not ping the broadcast id.  With the object the constructor builds for the
serie `SERVO_MX` behind a USB2AX adapter, where `maxId = 252`: the range
`(-5, 300)` is scanned as `[0, 252]`. -/
theorem servoScan_bounds_witness :
    (scanStart simApi 10 = 10 ∧ scanStop simApi (scanStart simApi 10) 3 = 253) ∧
    (scanStart simApi 0 = 0 ∧ scanStop simApi (scanStart simApi 0) 0 = 253) ∧
    (scanStart simApi 253 = 0 ∧ scanStop simApi (scanStart simApi 253) 253 = 253) ∧
    BROADCAST_ID ∉ idRange (scanStart simApi 0) (scanStop simApi (scanStart simApi 0) 0) ∧
    (scanStart (ctor (simEnv [5]) { simPre with serialDevice := 2 } 50) (-5) = 0 ∧
      scanStop (ctor (simEnv [5]) { simPre with serialDevice := 2 } 50)
        (scanStart (ctor (simEnv [5]) { simPre with serialDevice := 2 } 50) (-5)) 300 = 252) :=
  have h1 := servoScan_bounds (simEnv [5]) simApi 10 3 (by decide) (by decide)
  have h2 := servoScan_bounds (simEnv [5]) simApi 0 0 (by decide) (by decide)
  have h3 := servoScan_bounds (simEnv [5]) simApi 253 253 (by decide) (by decide)
  have h4 := servoScan_bounds (simEnv [5])
    (ctor (simEnv [5]) { simPre with serialDevice := 2 } 50) (-5) 300 (by decide) (by decide)
  ⟨⟨h1.2.1.trans (by decide), h1.2.2.1.trans (by decide)⟩,
   ⟨h2.2.1.trans (by decide), h2.2.2.1.trans (by decide)⟩,
   ⟨h3.2.1.trans (by decide), h3.2.2.1.trans (by decide)⟩,
   h2.2.2.2.2.2.2,
   ⟨h4.2.1.trans (by decide), h4.2.2.1.trans (by decide)⟩⟩

end HerkuleXSimpleAPI

namespace SerialPortWindows

/-! ## Properties of the serial port -/

/-! ### Timeout arithmetic -/

/-- C11: over exact rational arithmetic, `setBaudRate(b)` for a valid baud rate
`b` (one that `checkBaudRate` returns unchanged) sets
`byteTransfertTime = (1000 / b) * 10`, and `setTimeOut(packetLength)` sets
`packetWaitTime = byteTransfertTime * packetLength + 2 * latencyTime`.  For
`b = 115200` the byte time is `25/288`, within `0.0001` of `0.0868`; with
`packetLength = 6` and `latencyTime = 2` the wait time is `217/48`, within
`0.01` of `4.52`. -/
theorem timeout_arithmetic (checkBaudRate : Int → Int) (s : SerialPortWindows)
    (b counter packetLength : Int) (hvalid : checkBaudRate b = b) :
    (setBaudRate checkBaudRate s b).ttyDeviceBaudRate = b ∧
    (setBaudRate checkBaudRate s b).byteTransfertTime = (1000 / (b : ℚ)) * 10 ∧
    (setTimeOut s counter packetLength).packetWaitTime =
      s.byteTransfertTime * (packetLength : ℚ) + 2 * (s.latencyTime : ℚ) ∧
    (setTimeOut (setBaudRate checkBaudRate s b) counter packetLength).packetWaitTime =
      (1000 / (b : ℚ)) * 10 * (packetLength : ℚ) + 2 * (s.latencyTime : ℚ) ∧
    (b = 115200 →
      (setBaudRate checkBaudRate s b).byteTransfertTime = 25 / 288 ∧
      |(setBaudRate checkBaudRate s b).byteTransfertTime - 0.0868| < 0.0001 ∧
      (packetLength = 6 → s.latencyTime = 2 →
        (setTimeOut (setBaudRate checkBaudRate s b) counter packetLength).packetWaitTime
          = 217 / 48 ∧
        |(setTimeOut (setBaudRate checkBaudRate s b) counter packetLength).packetWaitTime
          - 4.52| < 0.01)) := by
  refine ⟨?_, ?_, ?_, ?_, ?_⟩
  · simp [setBaudRate, hvalid]
  · simp [setBaudRate, hvalid]
  · simp [setTimeOut]
  · simp [setTimeOut, setBaudRate, hvalid]
  · intro hb
    subst hb
    refine ⟨?_, ?_, ?_⟩
    · simp only [setBaudRate, hvalid]
      norm_num
    · simp only [setBaudRate, hvalid]
      rw [abs_lt]
      norm_num
    · intro hp hl
      subst hp
      simp only [setTimeOut, setBaudRate, hvalid, hl]
      refine ⟨by norm_num, ?_⟩
      rw [abs_lt]
      norm_num

/-- Instance of `timeout_arithmetic`: the baud rate 115200, kept as it is by the
check, a packet of 6 bytes and a latency of 2 ms. -/
theorem timeout_arithmetic_witness :
    (setBaudRate (fun b => b) simPort 115200).byteTransfertTime = 25 / 288 ∧
    (setTimeOut (setBaudRate (fun b => b) simPort 115200) 0 6).packetWaitTime = 217 / 48 :=
  have h := (timeout_arithmetic (fun b => b) simPort 115200 0 6 rfl).2.2.2.2 rfl
  ⟨h.1, (h.2.2 rfl rfl).1⟩

/-- C12 (as amended): `checkTimeOut` returns 1 exactly when the elapsed time in
ms is strictly greater than `packetWaitTime`, and 0 otherwise.  When the
elapsed time is negative and not greater than `packetWaitTime` (so for every
negative elapsed time when `packetWaitTime >= 0`) it returns 0 and resets
`packetStartTime` to the current time; when the elapsed time is in
`[0, packetWaitTime]` it returns 0 and leaves the object unchanged. -/
theorem checkTimeOut_spec (s : SerialPortWindows) (counterEnd freq counter : Int) :
    ((checkTimeOut s counterEnd freq counter).1 = 1 ↔
      timeElapsed s counterEnd freq > s.packetWaitTime) ∧
    ((checkTimeOut s counterEnd freq counter).1 = 0 ↔
      timeElapsed s counterEnd freq ≤ s.packetWaitTime) ∧
    (timeElapsed s counterEnd freq < 0 → timeElapsed s counterEnd freq ≤ s.packetWaitTime →
      checkTimeOut s counterEnd freq counter =
        (0, { s with packetStartTime := getTime counter })) ∧
    (0 ≤ s.packetWaitTime → timeElapsed s counterEnd freq < 0 →
      checkTimeOut s counterEnd freq counter =
        (0, { s with packetStartTime := getTime counter })) ∧
    (0 ≤ timeElapsed s counterEnd freq → timeElapsed s counterEnd freq ≤ s.packetWaitTime →
      checkTimeOut s counterEnd freq counter = (0, s)) := by
  have hreset : timeElapsed s counterEnd freq < 0 →
      timeElapsed s counterEnd freq ≤ s.packetWaitTime →
      checkTimeOut s counterEnd freq counter =
        (0, { s with packetStartTime := getTime counter }) := by
    intro hneg hle
    simp only [checkTimeOut, if_neg (not_lt.mpr hle), if_pos hneg]
  refine ⟨?_, ?_, hreset, ?_, ?_⟩
  · simp only [checkTimeOut]
    split_ifs with h1 h2 <;> simp [h1]
  · simp only [checkTimeOut]
    split_ifs with h1 h2 <;> simp [h1, not_lt.mp, le_of_not_lt]
  · intro hw hneg
    exact hreset hneg (le_trans (le_of_lt hneg) hw)
  · intro hpos hle
    simp only [checkTimeOut, if_neg (not_lt.mpr hle), if_neg (not_lt.mpr hpos)]

/-- Instances of `checkTimeOut_spec` for the timer of `simPort` (started at the
counter 10, wait time 5 ms) with a frequency of 1000 ticks per second: at the
counter 12 the elapsed time is 2 ms and nothing changes; at the counter 8 it is
-2 ms and the timer is reset to the current counter, 9; at the counter 16 it is
6 ms and the timer has expired. -/
theorem checkTimeOut_spec_witness :
    checkTimeOut simPort 12 1000 13 = (0, simPort) ∧
    checkTimeOut simPort 8 1000 9 = (0, { simPort with packetStartTime := 9 }) ∧
    (checkTimeOut simPort 16 1000 17).1 = 1 :=
  ⟨(checkTimeOut_spec simPort 12 1000 13).2.2.2.2
      (by norm_num [timeElapsed, simPort]) (by norm_num [timeElapsed, simPort]),
   ((checkTimeOut_spec simPort 8 1000 9).2.2.1
      (by norm_num [timeElapsed, simPort]) (by norm_num [timeElapsed, simPort])).trans
      (by simp [getTime]),
   (checkTimeOut_spec simPort 16 1000 17).1.2 (by norm_num [timeElapsed, simPort])⟩

/-- C12 (counterexample to the claim as stated): after `setTimeOut(-2000.0)` at
the counter 10, a reading of the counter at 9 with a frequency of 1 tick per
second gives an elapsed time of -1000 ms, which is negative; `checkTimeOut`
returns 1 and leaves `packetStartTime` at 10, it does not return 0 and reset
the timer. -/
theorem checkTimeOut_negative_elapsed_expires :
    timeElapsed (setTimeOutMsec simPort 10 (-2000)) 9 1 = -1000 ∧
    (checkTimeOut (setTimeOutMsec simPort 10 (-2000)) 9 1 11).1 = 1 ∧
    (checkTimeOut (setTimeOutMsec simPort 10 (-2000)) 9 1 11).2.packetStartTime = 10 ∧
    (checkTimeOut (setTimeOutMsec simPort 10 (-2000)) 9 1 11).2.packetStartTime ≠ getTime 11 := by
  refine ⟨?_, ?_, ?_, ?_⟩ <;>
    norm_num [checkTimeOut, setTimeOutMsec, timeElapsed, getTime, simPort]

/-! ### Opening and closing the link -/

/-- After `closeLink` the handle is `INVALID_HANDLE_VALUE`. -/
theorem closeLink_handle (s : SerialPortWindows) :
    (closeLink s).ttyDeviceFileDescriptor = INVALID_HANDLE_VALUE := by
  unfold closeLink
  split_ifs with h
  · rfl
  · exact not_not.mp h

/-- Without a handle `closeLink` does nothing. -/
theorem closeLink_of_invalid (s : SerialPortWindows)
    (h : s.ttyDeviceFileDescriptor = INVALID_HANDLE_VALUE) : closeLink s = s := by
  unfold closeLink
  rw [if_neg (not_not.mpr h)]

/-- With a handle `closeLink` purges the input, then closes the handle. -/
theorem closeLink_os_of_held (s : SerialPortWindows)
    (h : s.ttyDeviceFileDescriptor ≠ INVALID_HANDLE_VALUE) :
    (closeLink s).os = s.os ++
      [OsCall.PurgeComm s.ttyDeviceFileDescriptor (Int.lor PURGE_RXABORT PURGE_RXCLEAR),
       OsCall.CloseHandle s.ttyDeviceFileDescriptor] := by
  simp [closeLink, flush, h]

/-- C13: for every state, after `closeLink` the handle is
`INVALID_HANDLE_VALUE`; a handle that was held (any value other than
`INVALID_HANDLE_VALUE`) has been flushed by one `PurgeComm` and closed by one
`CloseHandle`, the only calls made; without a handle nothing is called and the
state is unchanged; a second `closeLink` calls nothing and leaves the state
unchanged, `closeLink(closeLink(s)) = closeLink(s)`. -/
theorem closeLink_idempotent (s : SerialPortWindows) :
    (closeLink s).ttyDeviceFileDescriptor = INVALID_HANDLE_VALUE ∧
    (s.ttyDeviceFileDescriptor ≠ INVALID_HANDLE_VALUE →
      (closeLink s).os = s.os ++
        [OsCall.PurgeComm s.ttyDeviceFileDescriptor (Int.lor PURGE_RXABORT PURGE_RXCLEAR),
         OsCall.CloseHandle s.ttyDeviceFileDescriptor]) ∧
    (s.ttyDeviceFileDescriptor = INVALID_HANDLE_VALUE → closeLink s = s) ∧
    closeLink (closeLink s) = closeLink s ∧
    (closeLink (closeLink s)).os = (closeLink s).os :=
  ⟨closeLink_handle s, closeLink_os_of_held s, closeLink_of_invalid s,
   closeLink_of_invalid _ (closeLink_handle s),
   by rw [closeLink_of_invalid _ (closeLink_handle s)]⟩

/-- Instances of `closeLink_idempotent`: the port `simPort` holds the handle 7,
which is purged and closed once; closing again adds no call.  A port just
constructed holds the value 0, not `INVALID_HANDLE_VALUE`, so its first
`closeLink` purges and closes 0. -/
theorem closeLink_idempotent_witness :
    (closeLink simPort).os = [OsCall.PurgeComm 7 10, OsCall.CloseHandle 7] ∧
    (closeLink (closeLink simPort)).os = [OsCall.PurgeComm 7 10, OsCall.CloseHandle 7] ∧
    (closeLink simPort).ttyDeviceFileDescriptor = -1 ∧
    (closeLink (ctor (fun b => b) "COM1" { simPort with os := [] } "COM3" 115200)).os =
      [OsCall.PurgeComm 0 10, OsCall.CloseHandle 0] :=
  have h := closeLink_idempotent simPort
  have h1 := h.2.1 (by decide)
  have h2 := (closeLink_idempotent
    (ctor (fun b => b) "COM1" { simPort with os := [] } "COM3" 115200)).2.1 (by decide)
  ⟨h1, h.2.2.2.2.trans h1, h.1, h2⟩

/-- C14: for every outcome of the calls made by `openLink`, the result is 1
exactly when `CreateFile` returns a handle other than `INVALID_HANDLE_VALUE`
and the eight calls that follow each return a `BOOL` other than `FALSE`, and 0
otherwise.  When it is 1 the object holds the handle returned by `CreateFile`.
When it is 0 the handle of the object is `INVALID_HANDLE_VALUE` on exit, and a
handle that `CreateFile` had returned has been closed: the last call made is
`CloseHandle` on it.  The calls of the `closeLink` that `openLink` starts with
come first. -/
theorem openLink_spec (o : OpenOutcomes) (s : SerialPortWindows) :
    ((openLink o s).1 = 1 ↔
      o.CreateFile ≠ INVALID_HANDLE_VALUE ∧ o.GetCommState ≠ FALSE ∧ o.SetCommState ≠ FALSE ∧
      o.SetCommMask ≠ FALSE ∧ o.SetupComm ≠ FALSE ∧ o.PurgeComm ≠ FALSE ∧
      o.ClearCommError ≠ FALSE ∧ o.GetCommTimeouts ≠ FALSE ∧ o.SetCommTimeouts ≠ FALSE) ∧
    ((openLink o s).1 = 0 ∨ (openLink o s).1 = 1) ∧
    ((openLink o s).1 = 1 → (openLink o s).2.ttyDeviceFileDescriptor = o.CreateFile) ∧
    ((openLink o s).1 = 0 →
      (openLink o s).2.ttyDeviceFileDescriptor = INVALID_HANDLE_VALUE ∧
      (o.CreateFile ≠ INVALID_HANDLE_VALUE →
        (openLink o s).2.os.getLast? = some (OsCall.CloseHandle o.CreateFile)) ∧
      (o.CreateFile = INVALID_HANDLE_VALUE →
        (openLink o s).2.os = (closeLink s).os ++ [OsCall.CreateFile s.ttyDeviceName])) ∧
    ((closeLink s).os ++ [OsCall.CreateFile s.ttyDeviceName]) <+: (openLink o s).2.os := by
  have hname : (closeLink s).ttyDeviceName = s.ttyDeviceName := by
    unfold closeLink flush
    split_ifs <;> rfl
  simp only [openLink, openLinkError]
  generalize closeLink s = c at hname ⊢
  by_cases h0 : o.CreateFile = INVALID_HANDLE_VALUE
  · simp [h0, closeLink_of_invalid, hname]
  by_cases h1 : o.GetCommState = FALSE
  · simp [h0, h1, closeLink_handle, closeLink_os_of_held, hname]
  by_cases h2 : o.SetCommState = FALSE
  · simp [h0, h1, h2, closeLink_handle, closeLink_os_of_held, hname]
  by_cases h3 : o.SetCommMask = FALSE
  · simp [h0, h1, h2, h3, closeLink_handle, closeLink_os_of_held, hname]
  by_cases h4 : o.SetupComm = FALSE
  · simp [h0, h1, h2, h3, h4, closeLink_handle, closeLink_os_of_held, hname]
  by_cases h5 : o.PurgeComm = FALSE
  · simp [h0, h1, h2, h3, h4, h5, closeLink_handle, closeLink_os_of_held, hname]
  by_cases h6 : o.ClearCommError = FALSE
  · simp [h0, h1, h2, h3, h4, h5, h6, closeLink_handle, closeLink_os_of_held, hname]
  by_cases h7 : o.GetCommTimeouts = FALSE
  · simp [h0, h1, h2, h3, h4, h5, h6, h7, closeLink_handle, closeLink_os_of_held, hname]
  by_cases h8 : o.SetCommTimeouts = FALSE
  · simp [h0, h1, h2, h3, h4, h5, h6, h7, h8, closeLink_handle, closeLink_os_of_held, hname]
  simp [h0, h1, h2, h3, h4, h5, h6, h7, h8, hname]

/-- Instances of `openLink_spec` on `simPort`: when every call succeeds the
result is 1 and the port holds the new handle 9; when `SetupComm` alone fails
the result is 0, the handle of the port is invalid and the last call closes the
handle 9. -/
theorem openLink_spec_witness :
    ((openLink simOpenOk simPort).1 = 1 ∧
      (openLink simOpenOk simPort).2.ttyDeviceFileDescriptor = 9) ∧
    ((openLink { simOpenOk with SetupComm := 0 } simPort).1 = 0 ∧
      (openLink { simOpenOk with SetupComm := 0 } simPort).2.ttyDeviceFileDescriptor = -1 ∧
      (openLink { simOpenOk with SetupComm := 0 } simPort).2.os.getLast? =
        some (OsCall.CloseHandle 9)) :=
  have h := openLink_spec simOpenOk simPort
  have h1 := h.1.2 (by decide)
  have g := openLink_spec { simOpenOk with SetupComm := 0 } simPort
  have g0 : (openLink { simOpenOk with SetupComm := 0 } simPort).1 = 0 := by
    rcases g.2.1 with g0 | g1
    · exact g0
    · exact absurd (g.1.1 g1).2.2.2.2.1 (by decide)
  ⟨⟨h1, h.2.2.1 h1⟩, ⟨g0, (g.2.2.2.1 g0).1, (g.2.2.2.1 g0).2.1 (by decide)⟩⟩

end SerialPortWindows

end SmartServo
